import Mathlib

/-!
Shallow embedding of the perf event-group configurer
(`src/daemon/linux/perf/PerfEventGroup.cpp`) and of the CPU identification
utilities (`CpuUtils.cpp`, provided as `src/unnamed/part_000`), together with
proofs about the specified properties.

Machine integers are modelled as `Nat` (for the unsigned C types) and `Int`
(for C `int`/`long` values such as cpu ids and keys); divisions are the C
unsigned truncating divisions, which coincide with `Nat` division.
-/

/-! ### Constants from the Linux perf ABI (`k/perf_event.h`) and from the source -/

def PERF_TYPE_SOFTWARE : Nat := 1
def PERF_TYPE_TRACEPOINT : Nat := 2

def PERF_COUNT_SW_CPU_CLOCK : Nat := 0
def PERF_COUNT_SW_TASK_CLOCK : Nat := 1
def PERF_COUNT_SW_CONTEXT_SWITCHES : Nat := 3
def PERF_COUNT_SW_DUMMY : Nat := 9

def PERF_SAMPLE_IP : Nat := 1
def PERF_SAMPLE_TID : Nat := 2
def PERF_SAMPLE_TIME : Nat := 4
def PERF_SAMPLE_READ : Nat := 16
def PERF_SAMPLE_CALLCHAIN : Nat := 32
def PERF_SAMPLE_ID : Nat := 64
def PERF_SAMPLE_PERIOD : Nat := 256
def PERF_SAMPLE_RAW : Nat := 1024
def PERF_SAMPLE_REGS_USER : Nat := 4096
def PERF_SAMPLE_IDENTIFIER : Nat := 65536

def PERF_FORMAT_ID : Nat := 4
def PERF_FORMAT_GROUP : Nat := 8

def CLOCK_MONOTONIC_RAW : Nat := 4

/-- All bits of a C `uint64_t`; `x &&& (UINT64_MAX ^^^ m)` models `x & ~m`. -/
def UINT64_MAX : Nat := 2 ^ 64 - 1

def INT_MAX : Nat := 2147483647

def NANO_SECONDS_IN_ONE_SECOND : Nat := 1000000000
def NANO_SECONDS_IN_100_MS : Nat := 100000000
def MAX_SPE_WATERMARK : Nat := 2048 * 1024
def MIN_SPE_WATERMARK : Nat := 4096

/-- Modelled from the spec: `schedSwitchId` is "tracepoint id or sentinel
UNKNOWN"; the sentinel constant `UNKNOWN_TRACEPOINT_ID` is declared in a header
that is not under `src/`. It is modelled as a value distinct from every valid
tracepoint id. -/
def UNKNOWN_TRACEPOINT_ID : Nat := 2 ^ 64 - 1

/-! ### Data model of the configurer (`PerfEventGroup.h` side, as used by the source) -/

/-- The capability-flag record `ConfigurerConfig.perfConfig` (spec section 6). -/
structure PerfConfig where
  is_system_wide : Bool
  has_sample_identifier : Bool
  has_attr_clockid_support : Bool
  has_attr_comm_exec : Bool
  has_attr_context_switch : Bool
  has_count_sw_dummy : Bool
  has_exclude_callchain_kernel : Bool
  can_access_tracepoints : Bool
  use_64bit_register_set : Bool
  exclude_kernel : Bool
deriving DecidableEq, Repr

structure RingbufferConfig where
  data_buffer_size : Nat
  aux_buffer_size : Nat
deriving DecidableEq, Repr

/-- The configurer configuration (`perf_event_group_configurer_config_t`). -/
structure perf_event_group_configurer_config_t where
  perfConfig : PerfConfig
  ringbuffer_config : RingbufferConfig
  excludeKernelEvents : Bool
  backtraceDepth : Nat
  sampleRate : Nat
  enablePeriodicSampling : Bool
  schedSwitchId : Nat
  schedSwitchKey : Int
  dummyKeyCounter : Int
deriving DecidableEq, Repr

/-- The group-identifier kind (`PerfEventGroupIdentifier::Type`). -/
inductive GroupType where
  | PER_CLUSTER_CPU
  | UNCORE_PMU
  | SPECIFIC_CPU
  | GLOBAL
  | SPE
deriving DecidableEq, Repr

/-- Modelled from the spec: `PerfEventGroupIdentifier::requiresLeader` is
declared in a header that is not under `src/`. Spec section 3 says each
identifier case "dictates whether a leader is required", and section 4.6
creates leaders exactly for the per-cluster CPU and uncore cases (the scenario
in section 8 expects `FORMAT_GROUP` on the per-cluster leader, so that case
requires a leader). -/
def requiresLeader : GroupType → Bool
  | .PER_CLUSTER_CPU => true
  | .UNCORE_PMU => true
  | _ => false

/-- The logical event description `IPerfGroups::Attr`. Boolean fields default
to false and numeric fields to zero, matching `IPerfGroups::Attr attr {}`. -/
structure GroupsAttr where
  type : Nat := 0
  config : Nat := 0
  config1 : Nat := 0
  config2 : Nat := 0
  periodOrFreq : Nat := 0
  sampleType : Nat := 0
  mmap : Bool := false
  comm : Bool := false
  freq : Bool := false
  task : Bool := false
  context_switch : Bool := false
deriving DecidableEq, Repr

/-- The kernel attribute record fields populated by `initEvent`
(`perf_event_attr`). Single-bit fields are modelled as `Nat` holding 0 or 1,
exactly as the source assigns them. -/
structure perf_event_attr where
  sample_type : Nat := 0
  sample_regs_user : Nat := 0
  inherit : Nat := 0
  inherit_stat : Nat := 0
  read_format : Nat := 0
  pinned : Nat := 0
  disabled : Nat := 0
  watermark : Nat := 0
  wakeup_watermark : Nat := 0
  use_clockid : Nat := 0
  clockid : Nat := 0
  type : Nat := 0
  config : Nat := 0
  config1 : Nat := 0
  config2 : Nat := 0
  sample_period : Nat := 0
  mmap : Nat := 0
  comm : Nat := 0
  comm_exec : Nat := 0
  freq : Nat := 0
  task : Nat := 0
  sample_id_all : Nat := 0
  context_switch : Nat := 0
  exclude_kernel : Nat := 0
  exclude_hv : Nat := 0
  exclude_idle : Nat := 0
  exclude_callchain_kernel : Nat := 0
  aux_watermark : Nat := 0
deriving DecidableEq, Repr

/-- A configured event (`perf_event_t`): the attribute record plus the key. -/
structure perf_event_t where
  attr : perf_event_attr := {}
  key : Int := 0
deriving DecidableEq, Repr

/-! ### The watermark policy and kernel-exclusion policy (lines 41-78) -/

/-- Translation of `calculate_aux_watermark` (PerfEventGroup.cpp lines 41-54).
`Nat` division is total, so `count = 0` (C undefined behaviour, see
`calculate_aux_watermark_checked`) evaluates `1000000000 / 0` to 0 here. -/
def calculate_aux_watermark (mmap_size : Nat) (count : Nat) : Nat :=
  let fraction_of_second := 10
  let frequency := max (NANO_SECONDS_IN_ONE_SECOND / count) 1
  let bps := 24 * frequency
  let pref_watermark := min (mmap_size / 2) (bps / fraction_of_second)
  max (min pref_watermark MAX_SPE_WATERMARK) MIN_SPE_WATERMARK

/-- The same computation with the division guarded: `none` marks the
division-by-zero (undefined behaviour in the C source, which performs
`1000000000 / count` unguarded). -/
def calculate_aux_watermark_checked (mmap_size : Nat) (count : Nat) : Option Nat :=
  if count = 0 then none else some (calculate_aux_watermark mmap_size count)

/-- Translation of `should_exclude_kernel` (lines 65-78). -/
def should_exclude_kernel (type : Nat) (config : Nat) (exclude_requested : Bool) : Bool :=
  if !exclude_requested then false
  else if type = PERF_TYPE_SOFTWARE then config ≠ PERF_COUNT_SW_CONTEXT_SWITCHES
  else true

/-! ### The attribute builder `initEvent` (lines 81-199)

The compile-time flag `CONFIG_PERF_SUPPORT_REGISTER_UNWINDING` is passed as the
explicit parameter `regUnwind`, so both compilation variants of the source are
covered. -/

namespace perf_event_group_configurer_t

/-- Line 131: `use_inherit = !(is_system_wide || is_header)`. -/
def use_inherit (config : perf_event_group_configurer_config_t) (is_header : Bool) : Bool :=
  !(config.perfConfig.is_system_wide || is_header)

/-- Line 133: `every_attribute_in_own_group`. -/
def every_attribute_in_own_group (config : perf_event_group_configurer_config_t)
    (is_header requires_leader : Bool) : Bool :=
  use_inherit config is_header || !requires_leader || is_header

/-- Line 135: `use_read_format_group`. -/
def use_read_format_group (config : perf_event_group_configurer_config_t)
    (is_header requires_leader leader : Bool) : Bool :=
  leader && !(use_inherit config is_header)
    && !(every_attribute_in_own_group config is_header requires_leader) && !is_header

/-- Lines 94-109: the sample-type composition. -/
def eventSampleTypeBase (config : perf_event_group_configurer_config_t)
    (attr : GroupsAttr) : Nat :=
  let sampleReadMask := if config.perfConfig.is_system_wide then 0 else PERF_SAMPLE_READ
  PERF_SAMPLE_TIME
    ||| (attr.sampleType &&& (UINT64_MAX ^^^ sampleReadMask))
    ||| (if config.perfConfig.has_sample_identifier then PERF_SAMPLE_IDENTIFIER
         else PERF_SAMPLE_TID ||| PERF_SAMPLE_IP ||| PERF_SAMPLE_ID)
    ||| (if attr.type = PERF_TYPE_TRACEPOINT then PERF_SAMPLE_PERIOD else 0)
    ||| (if config.perfConfig.is_system_wide && !attr.context_switch then 0 else PERF_SAMPLE_TID)
    ||| (if attr.freq then PERF_SAMPLE_PERIOD else 0)

/-- Lines 111-128: the register-unwinding adjustment, returning the final
`(sample_type, sample_regs_user)` pair. -/
def eventSampleTypeRegs (config : perf_event_group_configurer_config_t)
    (regUnwind : Bool) (attr : GroupsAttr) : Nat × Nat :=
  let st := eventSampleTypeBase config attr
  if regUnwind then
    if st &&& PERF_SAMPLE_CALLCHAIN ≠ 0 then
      (st ||| PERF_SAMPLE_REGS_USER,
       if config.perfConfig.use_64bit_register_set then 0x1ffffffff else 0xffff)
    else (st, 0)
  else (st, 0)

/-- Lines 92-181: the attribute record as populated by `initEvent` before the
SPE check (every assignment in source order; fields the source does not assign
keep the zero value of the freshly emplaced event). -/
def initEventAttr (config : perf_event_group_configurer_config_t) (regUnwind : Bool)
    (is_header requires_leader : Bool) (leader : Bool) (attr : GroupsAttr)
    (hasAuxData : Bool) : perf_event_attr :=
  let str := eventSampleTypeRegs config regUnwind attr
  let exclude_kernel := should_exclude_kernel attr.type attr.config config.excludeKernelEvents
  let pinned : Nat :=
    if leader || every_attribute_in_own_group config is_header requires_leader || is_header
    then 1 else 0
  { sample_type := str.1
    sample_regs_user := str.2
    inherit := if use_inherit config is_header then 1 else 0
    inherit_stat := if use_inherit config is_header then 1 else 0
    read_format := if use_read_format_group config is_header requires_leader leader
                   then PERF_FORMAT_ID ||| PERF_FORMAT_GROUP else PERF_FORMAT_ID
    pinned := pinned
    disabled := pinned
    watermark := 1
    wakeup_watermark := config.ringbuffer_config.data_buffer_size / 2
    use_clockid := if config.perfConfig.has_attr_clockid_support then 1 else 0
    clockid := if config.perfConfig.has_attr_clockid_support then CLOCK_MONOTONIC_RAW else 0
    type := attr.type
    config := attr.config
    config1 := attr.config1
    config2 := attr.config2
    sample_period := attr.periodOrFreq
    mmap := if attr.mmap then 1 else 0
    comm := if attr.comm then 1 else 0
    comm_exec := if attr.comm && config.perfConfig.has_attr_comm_exec then 1 else 0
    freq := if attr.freq then 1 else 0
    task := if attr.task then 1 else 0
    sample_id_all := 1
    context_switch := if attr.context_switch then 1 else 0
    exclude_kernel := if exclude_kernel then 1 else 0
    exclude_hv := if exclude_kernel then 1 else 0
    exclude_idle := if exclude_kernel then 1 else 0
    exclude_callchain_kernel :=
      if config.excludeKernelEvents && config.perfConfig.has_exclude_callchain_kernel
      then 1 else 0
    aux_watermark :=
      if hasAuxData
      then calculate_aux_watermark config.ringbuffer_config.aux_buffer_size attr.periodOrFreq
      else 0 }

/-- Translation of `initEvent` (lines 81-199). Returns the C `bool` result and
the state of the written event (on the SPE failure path the source has already
written every attribute field of the emplaced event and leaves it in place). -/
def initEvent (config : perf_event_group_configurer_config_t) (regUnwind : Bool)
    (is_header requires_leader : Bool) (type : GroupType) (leader : Bool)
    (key : Int) (attr : GroupsAttr) (hasAuxData : Bool) : Bool × perf_event_t :=
  let event : perf_event_t :=
    { attr := initEventAttr config regUnwind is_header requires_leader leader attr hasAuxData
      key := key }
  if type = GroupType.SPE then
    if !config.perfConfig.has_attr_context_switch then (false, event)
    else (true, { event with attr := { event.attr with context_switch := 1 } })
  else (true, event)

/-- Translation of `addEvent` (lines 201-228); `events` is `state.events`,
`requires_leader`/`type` stand for `requiresLeader()`/`identifier.getType()`.
The source emplaces the new event before calling `initEvent` and never removes
it, so the returned list retains the new element even when `initEvent` fails. -/
def addEvent (config : perf_event_group_configurer_config_t) (regUnwind : Bool)
    (requires_leader : Bool) (type : GroupType) (events : List perf_event_t)
    (leader : Bool) (key : Int) (attr : GroupsAttr) (hasAuxData : Bool) :
    Bool × List perf_event_t :=
  if leader && !events.isEmpty then (false, events)
  else if events.length ≥ INT_MAX then (false, events)
  else
    let r := initEvent config regUnwind false requires_leader type leader key attr hasAuxData
    (r.1, events ++ [r.2])

/-- Line 359-362: `nextDummyKey` post-decrements the dummy-key counter; the
result is the key to use together with the new counter value. -/
def nextDummyKey (dummyKeyCounter : Int) : Int × Int :=
  (dummyKeyCounter, dummyKeyCounter - 1)

/-- The base attribute of the CPU group leader (lines 252-256). -/
def cpuLeaderBaseAttr : GroupsAttr :=
  { sampleType := PERF_SAMPLE_TID ||| PERF_SAMPLE_READ
    mmap := true, comm := true, task := true }

/-- The capability tiers of `createCpuGroupLeader` (lines 260-310): `none` is
the `UNKNOWN_TRACEPOINT_ID` failure return, otherwise the leader attribute and
the `enableTaskClock` flag. -/
def createCpuGroupLeaderTiers (config : perf_event_group_configurer_config_t) :
    Option (GroupsAttr × Bool) :=
  let enableCallChain := 0 < config.backtraceDepth
  let attr0 := cpuLeaderBaseAttr
  if config.perfConfig.can_access_tracepoints && config.perfConfig.is_system_wide then
      if config.schedSwitchId = UNKNOWN_TRACEPOINT_ID then none
      else some ({ attr0 with
                    type := PERF_TYPE_TRACEPOINT,
                    config := config.schedSwitchId,
                    periodOrFreq := 1,
                    sampleType := attr0.sampleType ||| PERF_SAMPLE_RAW }, false)
    else
      if config.perfConfig.has_attr_context_switch then
        if config.perfConfig.has_count_sw_dummy then
          some ({ attr0 with
                    type := PERF_TYPE_SOFTWARE,
                    context_switch := true,
                    config := PERF_COUNT_SW_DUMMY,
                    periodOrFreq := 0 }, false)
        else
          some ({ attr0 with
                    type := PERF_TYPE_SOFTWARE,
                    context_switch := true,
                    config := PERF_COUNT_SW_CPU_CLOCK,
                    periodOrFreq :=
                      if 0 < config.sampleRate && config.enablePeriodicSampling
                      then NANO_SECONDS_IN_ONE_SECOND / config.sampleRate else 0,
                    sampleType := attr0.sampleType ||| PERF_SAMPLE_TID
                      ||| PERF_SAMPLE_IP ||| PERF_SAMPLE_READ
                      ||| (if enableCallChain then PERF_SAMPLE_CALLCHAIN else 0) },
                false)
      else if !config.perfConfig.exclude_kernel then
        some ({ attr0 with
                  type := PERF_TYPE_SOFTWARE,
                  config := PERF_COUNT_SW_CONTEXT_SWITCHES,
                  periodOrFreq := 1,
                  sampleType := attr0.sampleType ||| PERF_SAMPLE_TID }, true)
      else
        some ({ attr0 with
                  type := PERF_TYPE_SOFTWARE,
                  config := PERF_COUNT_SW_CPU_CLOCK,
                  periodOrFreq :=
                    if 0 < config.sampleRate && config.enablePeriodicSampling
                    then NANO_SECONDS_IN_ONE_SECOND / config.sampleRate else 0,
                  sampleType := attr0.sampleType ||| PERF_SAMPLE_TID
                    ||| PERF_SAMPLE_IP ||| PERF_SAMPLE_READ
                    ||| (if enableCallChain then PERF_SAMPLE_CALLCHAIN else 0) },
              false)

/-- Translation of `createCpuGroupLeader` (lines 248-344) for a per-cluster CPU
group. `events` is the group's current event list and `dk` the dummy-key
counter; the result is the C `bool`, the new event list and the new counter. -/
def createCpuGroupLeader (config : perf_event_group_configurer_config_t)
    (regUnwind : Bool) (events : List perf_event_t) (dk : Int) :
    Bool × List perf_event_t × Int :=
  let enableCallChain := 0 < config.backtraceDepth
  match createCpuGroupLeaderTiers config with
  | none => (false, events, dk)
  | some (attr, enableTaskClock) =>
    -- group leader (line 313)
    let r1 := addEvent config regUnwind (requiresLeader .PER_CLUSTER_CPU) .PER_CLUSTER_CPU
                events true config.schedSwitchKey attr false
    if !r1.1 then (false, r1.2, dk)
    else
      -- periodic PC sampling (lines 318-328)
      let step2 : Bool × List perf_event_t × Int :=
        if attr.config ≠ PERF_COUNT_SW_CPU_CLOCK
            && 0 < config.sampleRate && config.enablePeriodicSampling then
          let pcAttr : GroupsAttr :=
            { type := PERF_TYPE_SOFTWARE
              config := PERF_COUNT_SW_CPU_CLOCK
              sampleType := PERF_SAMPLE_TID ||| PERF_SAMPLE_IP ||| PERF_SAMPLE_READ
                ||| (if enableCallChain then PERF_SAMPLE_CALLCHAIN else 0)
              periodOrFreq := NANO_SECONDS_IN_ONE_SECOND / config.sampleRate }
          let k := nextDummyKey dk
          let r2 := addEvent config regUnwind (requiresLeader .PER_CLUSTER_CPU)
                      .PER_CLUSTER_CPU r1.2 false k.1 pcAttr false
          (r2.1, r2.2, k.2)
        else (true, r1.2, dk)
      if !step2.1 then (false, step2.2.1, step2.2.2)
      else
        -- high-frequency task clock (lines 332-341)
        if enableTaskClock then
          let taskClockAttr : GroupsAttr :=
            { type := PERF_TYPE_SOFTWARE
              config := PERF_COUNT_SW_TASK_CLOCK
              periodOrFreq := 100000
              sampleType := PERF_SAMPLE_TID }
          let k := nextDummyKey step2.2.2
          let r3 := addEvent config regUnwind (requiresLeader .PER_CLUSTER_CPU)
                      .PER_CLUSTER_CPU step2.2.1 false k.1 taskClockAttr false
          (r3.1, r3.2, k.2)
        else (step2.1, step2.2.1, step2.2.2)

end perf_event_group_configurer_t

/-! ### CPU utilities (`CpuUtils.cpp`, `src/unnamed/part_000`)

Text lines are modelled as `List Char`. Each element of a line list stands for
one chunk returned by `fgets` (the full line including its trailing newline;
the source replaces the last character of every non-empty chunk with a NUL). -/

namespace cpu_utils

/-- Modelled from the spec: the permissive integer parser of `OlyUtility`
(`stringToInt`/`stringToLong`, not under `src/`), which the spec describes as
"a permissive integer parser honouring an explicit or detected radix": the
`strtol` convention of optional whitespace, optional sign, a `0x`/`0X` prefix
for base 16 or a leading `0` for base 8 when the requested base is 0, with the
whole remaining string required to be consumed. `digitVal` gives the value of
one digit character. -/
def digitVal (c : Char) : Option Nat :=
  if '0' ≤ c ∧ c ≤ '9' then some (c.toNat - 48)
  else if 'a' ≤ c ∧ c ≤ 'f' then some (c.toNat - 87)
  else if 'A' ≤ c ∧ c ≤ 'F' then some (c.toNat - 55)
  else none

/-- Digit-sequence accumulator of the modelled parser. -/
def parseDigitsAux (base : Nat) : Nat → List Char → Option Nat
  | acc, [] => some acc
  | acc, c :: cs =>
    match digitVal c with
    | some d => if d < base then parseDigitsAux base (acc * base + d) cs else none
    | none => none

/-- Nonempty digit sequence in the given base, fully consumed. -/
def parseDigits (base : Nat) : List Char → Option Nat
  | [] => none
  | c :: cs =>
    match digitVal c with
    | some d => if d < base then parseDigitsAux base d cs else none
    | none => none

/-- Radix detection for base 0 (the `stringToInt(_, _, 0)` calls). -/
def parseUnsignedAuto : List Char → Option Nat
  | '0' :: 'x' :: rest => parseDigits 16 rest
  | '0' :: 'X' :: rest => parseDigits 16 rest
  | '0' :: rest => if rest.isEmpty then some 0 else parseDigits 8 rest
  | l => parseDigits 10 l

/-- Leading-whitespace skip of `strtol`. -/
def skipWs (l : List Char) : List Char :=
  l.dropWhile fun c => c = ' ' ∨ c = '\t'

/-- Optional sign around an unsigned parse. -/
def parseSigned (pu : List Char → Option Nat) (l : List Char) : Option Int :=
  match skipWs l with
  | [] => (pu []).map fun n => (n : Int)
  | c :: rest =>
    if c = '-' then (pu rest).map fun n => -(n : Int)
    else if c = '+' then (pu rest).map fun n => (n : Int)
    else (pu (c :: rest)).map fun n => (n : Int)

/-- Modelled from the spec: `stringToInt(&v, s, 0)` of `OlyUtility`. -/
def stringToInt (l : List Char) : Option Int :=
  parseSigned parseUnsignedAuto l

/-- Modelled from the spec: `stringToLong(&v, s, 10)` of `OlyUtility`. -/
def stringToLong (l : List Char) : Option Int :=
  parseSigned (parseDigits 10) l

/-! #### `getMaxCoreNum` (lines 26-54) -/

/-- The `readdir` loop of `getMaxCoreNum`: `maxCoreNum` starts at -1 and each
entry whose name starts with `cpu` followed by a base-10 number `coreNum ≥
maxCoreNum` replaces `maxCoreNum` by `coreNum + 1`. -/
def getMaxCoreNumLoop : Int → List (List Char) → Int
  | maxCoreNum, [] => maxCoreNum
  | maxCoreNum, name :: rest =>
    getMaxCoreNumLoop
      (if ("cpu".toList).isPrefixOf name then
        match stringToLong (name.drop 3) with
        | some coreNum => if maxCoreNum ≤ coreNum then coreNum + 1 else maxCoreNum
        | none => maxCoreNum
      else maxCoreNum) rest

/-- Translation of `cpu_utils::getMaxCoreNum` over the directory-entry names of
the sysfs CPU root; `none` is the fatal `handleException` path. -/
def getMaxCoreNum (entries : List (List Char)) : Option Nat :=
  let maxCoreNum := getMaxCoreNumLoop (-1) entries
  if maxCoreNum < 1 then none else some maxCoreNum.toNat

/-! #### `setImplementer` / `setPart` (lines 56-70) -/

/-- Translation of `setImplementer`: reset a still-unknown (-1) id to 0, then
OR in `implementer << 12`. -/
def setImplementer (cpuId : Int) (implementer : Int) : Int :=
  Int.lor (if cpuId = -1 then 0 else cpuId) (implementer <<< (12 : Int))

/-- Translation of `setPart`: reset a still-unknown (-1) id to 0, then OR in
the part value. -/
def setPart (cpuId : Int) (part : Int) : Int :=
  Int.lor (if cpuId = -1 then 0 else cpuId) part

/-! #### `parseProcCpuInfo` (lines 82-214) -/

/-- The C `static_cast<size_t>` of an `int`/`long` value. -/
def sizeT (v : Int) : Nat := (v % (2 ^ 64 : Int)).toNat

/-- One classified line of `/proc/cpuinfo`. For the four recognised keys the
payload is the result of the colon check of lines 124-130 (`none` when the
colon layout is malformed) and, for the three integer keys, of `stringToInt`
on the value text. -/
inductive CpuInfoLine where
  | blank
  | hw (v : Option (List Char))
  | impl (v : Option (Option Int))
  | part (v : Option (Option Int))
  | proc (v : Option (Option Int))
  | other
deriving DecidableEq, Repr

/-- The strip of lines 105-108: the last character of a non-empty chunk is
replaced by NUL, so the processed text is the chunk without its last char. -/
def stripLine (raw : List Char) : List Char := raw.dropLast

/-- The colon check of lines 124-130 applied to a stripped line: the value
starts two characters after the first `:` and must be nonempty. -/
def colonValue (t : List Char) : Option (List Char) :=
  match t.findIdx? (· = ':') with
  | none => none
  | some i => if i + 2 ≥ t.length then none else some (t.drop (i + 2))

/-- Classification of one raw chunk, following lines 105-123: a chunk of
length 1 is a section separator, otherwise the stripped text is matched
against the four key prefixes (which are mutually exclusive). -/
def classifyLine (raw : List Char) : CpuInfoLine :=
  if raw.length = 1 then .blank
  else
    let t := stripLine raw
    if ("Hardware".toList).isPrefixOf t then .hw (colonValue t)
    else if ("CPU implementer".toList).isPrefixOf t then
      .impl ((colonValue t).map stringToInt)
    else if ("CPU part".toList).isPrefixOf t then
      .part ((colonValue t).map stringToInt)
    else if ("processor".toList).isPrefixOf t then
      .proc ((colonValue t).map stringToInt)
    else .other

/-- The loop state of `parseProcCpuInfo` (lines 94-101). `processor = none` is
`UNKNOWN_PROCESSOR`. -/
structure ParseState where
  hardwareName : List Char := []
  foundCoreName : Bool := false
  processor : Option Nat := none
  minProcessor : Nat
  maxProcessor : Nat := 0
  foundProcessorInSection : Bool := false
  outOfPlaceCpuId : Int := -1
  invalidFormat : Bool := false
  cpuIds : List Int
deriving DecidableEq, Repr

/-- Initial state: `minProcessor = cpuIds.size()`, `maxProcessor = 0`. -/
def ParseState.init (cpuIds : List Int) : ParseState :=
  { minProcessor := cpuIds.length, cpuIds := cpuIds }

/-- Result of one iteration of the `fgets` loop. -/
inductive StepRes where
  | cont (st : ParseState)
  | ret (hardwareName : List Char) (cpuIds : List Int)
  | fatal
deriving Repr

/-- One iteration of the while loop (lines 102-193) on a classified line. -/
def parseStep (justGetHardwareName : Bool) (st : ParseState) :
    CpuInfoLine → StepRes
  | .blank =>
    .cont { st with processor := none, foundProcessorInSection := false }
  | .other => .cont st
  | .hw v =>
    if st.foundCoreName then .cont st
    else
      match v with
      | none => .ret st.hardwareName st.cpuIds
      | some name =>
        if justGetHardwareName then .ret name st.cpuIds
        else .cont { st with hardwareName := name, foundCoreName := true }
  | .impl v =>
    match v with
    | none => .ret st.hardwareName st.cpuIds
    | some none => .cont st
    | some (some implementer) =>
      match st.processor with
      | some p =>
        .cont { st with
                 cpuIds := st.cpuIds.set p (setImplementer (st.cpuIds.getD p 0) implementer) }
      | none =>
        .cont { st with
                 outOfPlaceCpuId := setImplementer st.outOfPlaceCpuId implementer,
                 invalidFormat := true }
  | .part v =>
    match v with
    | none => .ret st.hardwareName st.cpuIds
    | some none => .cont st
    | some (some cpuId) =>
      match st.processor with
      | some p =>
        .cont { st with cpuIds := st.cpuIds.set p (setPart (st.cpuIds.getD p 0) cpuId) }
      | none =>
        .cont { st with
                 outOfPlaceCpuId := setPart st.outOfPlaceCpuId cpuId,
                 invalidFormat := true }
  | .proc v =>
    match v with
    | none => .ret st.hardwareName st.cpuIds
    | some idOpt =>
      -- min/max update for converted values (lines 173-176)
      let st :=
        match idOpt with
        | some processorId =>
          { st with
             minProcessor := if sizeT processorId < st.minProcessor then sizeT processorId
                             else st.minProcessor,
             maxProcessor := if st.maxProcessor < sizeT processorId then sizeT processorId
                             else st.maxProcessor }
        | none => st
      if st.foundProcessorInSection then
        .cont { st with processor := none, invalidFormat := true }
      else
        match idOpt with
        | some processorId =>
          if st.cpuIds.length ≤ sizeT processorId then .fatal
          else .cont { st with
                        processor := some (sizeT processorId),
                        foundProcessorInSection := true }
        | none => .cont st

/-- Result of running the whole loop. -/
inductive LoopRes where
  | endOfInput (st : ParseState)
  | ret (hardwareName : List Char) (cpuIds : List Int)
  | fatal
deriving Repr

/-- The `fgets` loop over all classified lines. -/
def parseLoop (justGetHardwareName : Bool) :
    ParseState → List CpuInfoLine → LoopRes
  | st, [] => .endOfInput st
  | st, t :: ts =>
    match parseStep justGetHardwareName st t with
    | .cont st' => parseLoop justGetHardwareName st' ts
    | .ret h c => .ret h c
    | .fatal => .fatal

/-- The out-of-place fill loop of lines 200-205: `n` iterations starting at
index `p`, setting every entry that still holds -1 to `v`. -/
def fillLoop (v : Int) : List Int → Nat → Nat → List Int
  | ids, _, 0 => ids
  | ids, p, n + 1 =>
    fillLoop v (if ids.getD p 0 = -1 then ids.set p v else ids) (p + 1) n

/-- The end-of-file handling of lines 196-206. -/
def finalize (st : ParseState) : List Char × List Int :=
  if st.invalidFormat ∧ st.outOfPlaceCpuId ≠ -1 ∧ st.minProcessor ≤ st.maxProcessor then
    let minP := if 0 < st.minProcessor then st.minProcessor else 0
    let maxP := if st.maxProcessor < st.cpuIds.length then st.maxProcessor + 1
                else st.cpuIds.length
    (st.hardwareName, fillLoop st.outOfPlaceCpuId st.cpuIds minP (maxP - minP))
  else (st.hardwareName, st.cpuIds)

/-- The overall result of `parseProcCpuInfo`: the hardware name and the final
contents of the `cpuIds` span. `early` marks the in-loop `return` paths (which
skip the end-of-file fill) and `fatal` the `handleException` path. -/
inductive ParseOutcome where
  | ok (hardwareName : List Char) (cpuIds : List Int)
  | early (hardwareName : List Char) (cpuIds : List Int)
  | fatal
deriving DecidableEq, Repr

/-- Translation of `parseProcCpuInfo` (lines 82-214) over the chunks read by
`fgets`. -/
def parseProcCpuInfo (justGetHardwareName : Bool) (cpuIds : List Int)
    (lines : List (List Char)) : ParseOutcome :=
  match parseLoop justGetHardwareName (ParseState.init cpuIds)
      (lines.map classifyLine) with
  | .endOfInput st =>
    let r := finalize st
    .ok r.1 r.2
  | .ret h c => .early h c
  | .fatal => .fatal

end cpu_utils

/-! ### Helper lemmas for bit-level reasoning -/

theorem testBit_or_false {a b : Nat} {i : Nat} (ha : a.testBit i = false)
    (hb : b.testBit i = false) : (a ||| b).testBit i = false := by
  rw [Nat.testBit_lor, ha, hb]; rfl

theorem testBit_ite_false {c : Prop} [Decidable c] {a b : Nat} {i : Nat}
    (ha : a.testBit i = false) (hb : b.testBit i = false) :
    (if c then a else b).testBit i = false := by
  split <;> assumption

theorem testBit_masked_false {x M : Nat} {i : Nat} (hM : M.testBit i = false) :
    (x &&& M).testBit i = false := by
  rw [Nat.testBit_land, hM]; exact Bool.and_false _

theorem land_pow_eq_zero {x : Nat} {n : Nat} (h : x.testBit n = false) :
    x &&& 2 ^ n = 0 := by
  apply Nat.eq_of_testBit_eq
  intro i
  rw [Nat.testBit_land, Nat.zero_testBit]
  by_cases hi : i = n
  · subst hi; rw [h]; rfl
  · rw [Nat.testBit_two_pow_of_ne fun hnm => hi hnm.symm]
    exact Bool.and_false _

/-! ### C4: bounds of `calculate_aux_watermark` -/

/-- C4 counterexample: at `mmap_size = 4096`, `period = 1` the result is 4096,
which exceeds `mmap_size / 2 = 2048`, so the claimed bound
`calculate_aux_watermark mmap period ≤ mmap / 2` fails. -/
theorem C4_counterexample :
    1 ≤ 1 ∧ calculate_aux_watermark 4096 1 = 4096 ∧
      ¬ calculate_aux_watermark 4096 1 ≤ 4096 / 2 := by
  decide

/-- C4 (amended): for every `mmap_size` and every `period ≥ 1` the result of
`calculate_aux_watermark` lies in `[4096, 2*1024*1024]`, and it is at most
`mmap_size / 2` whenever `mmap_size / 2` is itself at least the lower clamp
4096 (i.e. `mmap_size ≥ 8192`); for smaller aux buffers the clamp to 4096 can
exceed `mmap_size / 2`. -/
theorem C4_calculate_aux_watermark_bounds (mmap_size count : Nat) (h : 1 ≤ count) :
    4096 ≤ calculate_aux_watermark mmap_size count ∧
    calculate_aux_watermark mmap_size count ≤ 2 * 1024 * 1024 ∧
    (8192 ≤ mmap_size → calculate_aux_watermark mmap_size count ≤ mmap_size / 2) := by
  have h1 : calculate_aux_watermark mmap_size count
      = max (min (min (mmap_size / 2) (24 * max (1000000000 / count) 1 / 10))
          (2048 * 1024)) 4096 := rfl
  rw [h1]
  generalize 24 * max (1000000000 / count) 1 / 10 = b
  omega

/-- C4 witness: the amended bounds evaluated at `mmap_size = 65536`,
`period = 1000000`. -/
theorem C4_witness :
    4096 ≤ calculate_aux_watermark 65536 1000000 ∧
    calculate_aux_watermark 65536 1000000 ≤ 2 * 1024 * 1024 ∧
    (8192 ≤ 65536 → calculate_aux_watermark 65536 1000000 ≤ 65536 / 2) :=
  C4_calculate_aux_watermark_bounds 65536 1000000 (by decide)

/-! ### C10: the unguarded division in `calculate_aux_watermark` -/

open perf_event_group_configurer_t in
/-- C10: `calculate_aux_watermark` divides `1000000000` by `count` with no
guard, so it is well defined (as C code) exactly under `count ≥ 1`: the
guarded variant agrees with it there and reports the division-by-zero for
`count = 0`. `initEvent` feeds the caller-supplied `attr.periodOrFreq`
(assigned to `sample_period`) into that division whenever `hasAuxData` is
true, without any check that it is nonzero. -/
theorem C10_aux_watermark_division_reachable :
    (∀ mmap_size count : Nat, 1 ≤ count →
        calculate_aux_watermark_checked mmap_size count
          = some (calculate_aux_watermark mmap_size count)) ∧
    (∀ mmap_size : Nat, calculate_aux_watermark_checked mmap_size 0 = none) ∧
    (∀ (config : perf_event_group_configurer_config_t) (regUnwind : Bool)
        (is_header requires_leader : Bool) (type : GroupType) (leader : Bool)
        (key : Int) (attr : GroupsAttr),
        (initEvent config regUnwind is_header requires_leader type leader key
            attr true).2.attr.aux_watermark
          = calculate_aux_watermark config.ringbuffer_config.aux_buffer_size
              attr.periodOrFreq) := by
  refine ⟨?_, ?_, ?_⟩
  · intro mmap_size count h
    unfold calculate_aux_watermark_checked
    rw [if_neg (by omega)]
  · intro mmap_size
    rfl
  · intro config regUnwind is_header requires_leader type leader key attr
    unfold initEvent
    split
    · split <;> simp [initEventAttr]
    · simp [initEventAttr]

/-! ### C1: SPE without kernel context-switch support -/

/-- An example configuration whose kernel lacks `attr_context_switch`. -/
def cfgNoCtxSwitch : perf_event_group_configurer_config_t :=
  { perfConfig :=
      { is_system_wide := true
        has_sample_identifier := true
        has_attr_clockid_support := false
        has_attr_comm_exec := false
        has_attr_context_switch := false
        has_count_sw_dummy := false
        has_exclude_callchain_kernel := false
        can_access_tracepoints := true
        use_64bit_register_set := false
        exclude_kernel := false }
    ringbuffer_config := { data_buffer_size := 4096, aux_buffer_size := 65536 }
    excludeKernelEvents := false
    backtraceDepth := 0
    sampleRate := 0
    enablePeriodicSampling := false
    schedSwitchId := 1
    schedSwitchKey := 0
    dummyKeyCounter := -1 }

open perf_event_group_configurer_t in
/-- C1 counterexample: with `has_attr_context_switch = false` and an SPE group,
`addEvent` does return false, but the event emplaced before the `initEvent`
call stays in `state.events`: starting from an empty list the list afterwards
has length 1, so the event sequence is not left unchanged. -/
theorem C1_counterexample :
    (addEvent cfgNoCtxSwitch false false .SPE [] false 0
        { periodOrFreq := 100 } true).1 = false ∧
    (addEvent cfgNoCtxSwitch false false .SPE [] false 0
        { periodOrFreq := 100 } true).2.length = 1 := by
  decide

open perf_event_group_configurer_t in
/-- C1 (amended): if the group type is SPE and `has_attr_context_switch` is
false then `initEvent` returns false and `addEvent` returns false, but a
failing `addEvent` leaves `state.events` one element longer than before the
call (the partially initialised event emplaced at line 215 is never removed),
not unchanged as claimed. -/
theorem C1_spe_failure_appends_event
    (config : perf_event_group_configurer_config_t) (regUnwind : Bool)
    (requires_leader : Bool) (events : List perf_event_t) (leader : Bool)
    (key : Int) (attr : GroupsAttr) (hasAuxData : Bool)
    (hctx : config.perfConfig.has_attr_context_switch = false)
    (hleader : leader = true → events = [])
    (hlen : events.length < INT_MAX) :
    (initEvent config regUnwind false requires_leader .SPE leader key attr
        hasAuxData).1 = false ∧
    (addEvent config regUnwind requires_leader .SPE events leader key attr
        hasAuxData).1 = false ∧
    (addEvent config regUnwind requires_leader .SPE events leader key attr
        hasAuxData).2
      = events ++ [(initEvent config regUnwind false requires_leader .SPE leader
          key attr hasAuxData).2] := by
  have hinit : (initEvent config regUnwind false requires_leader .SPE leader key
      attr hasAuxData).1 = false := by
    unfold initEvent
    rw [if_pos rfl, if_pos (by rw [hctx]; rfl)]
  refine ⟨hinit, ?_⟩
  have hnotshort : ¬ (leader && !events.isEmpty) = true := by
    cases leader
    · simp
    · rw [hleader rfl]; simp
  unfold addEvent
  rw [if_neg hnotshort, if_neg (by omega)]
  exact ⟨hinit, rfl⟩

open perf_event_group_configurer_t in
/-- C1 witness: the amended statement at a concrete configuration. -/
theorem C1_witness :
    (initEvent cfgNoCtxSwitch false false false .SPE false 0 {} true).1 = false ∧
    (addEvent cfgNoCtxSwitch false false .SPE [] false 0 {} true).1 = false ∧
    (addEvent cfgNoCtxSwitch false false .SPE [] false 0 {} true).2
      = [] ++ [(initEvent cfgNoCtxSwitch false false false .SPE false 0 {} true).2] :=
  C1_spe_failure_appends_event cfgNoCtxSwitch false false [] false 0 {} true rfl
    (fun _ => rfl) (by decide)

/-! ### C3: inherit excludes `PERF_SAMPLE_READ` and `PERF_FORMAT_GROUP` -/

namespace perf_event_group_configurer_t

/-- The SPE branch of `initEvent` only rewrites `context_switch`, so the
sample type, read format and inherit bit of the returned event are those of
`initEventAttr`. -/
theorem initEvent_attr_projections
    (config : perf_event_group_configurer_config_t) (regUnwind : Bool)
    (is_header requires_leader : Bool) (type : GroupType) (leader : Bool)
    (key : Int) (attr : GroupsAttr) (hasAuxData : Bool) :
    (initEvent config regUnwind is_header requires_leader type leader key attr
        hasAuxData).2.attr.sample_type
      = (initEventAttr config regUnwind is_header requires_leader leader attr
          hasAuxData).sample_type ∧
    (initEvent config regUnwind is_header requires_leader type leader key attr
        hasAuxData).2.attr.read_format
      = (initEventAttr config regUnwind is_header requires_leader leader attr
          hasAuxData).read_format ∧
    (initEvent config regUnwind is_header requires_leader type leader key attr
        hasAuxData).2.attr.inherit
      = (initEventAttr config regUnwind is_header requires_leader leader attr
          hasAuxData).inherit ∧
    (initEvent config regUnwind is_header requires_leader type leader key attr
        hasAuxData).2.attr.pinned
      = (initEventAttr config regUnwind is_header requires_leader leader attr
          hasAuxData).pinned ∧
    (initEvent config regUnwind is_header requires_leader type leader key attr
        hasAuxData).2.attr.disabled
      = (initEventAttr config regUnwind is_header requires_leader leader attr
          hasAuxData).disabled := by
  unfold initEvent
  split
  · split <;> simp
  · simp

/-- When `use_inherit` holds, bit 4 (`PERF_SAMPLE_READ`) of the composed
sample type is clear: the caller's sample type is masked with
`~PERF_SAMPLE_READ` (the configurer is not in system-wide mode in this case)
and no other contribution carries bit 4. -/
theorem eventSampleTypeBase_testBit_read
    (config : perf_event_group_configurer_config_t) (attr : GroupsAttr)
    (hsw : config.perfConfig.is_system_wide = false) :
    (eventSampleTypeBase config attr).testBit 4 = false := by
  unfold eventSampleTypeBase
  rw [hsw, if_neg (by simp)]
  refine testBit_or_false (testBit_or_false (testBit_or_false (testBit_or_false
    (testBit_or_false ?_ ?_) ?_) ?_) ?_) ?_
  · decide
  · exact testBit_masked_false (by decide)
  · exact testBit_ite_false (by decide) (by decide)
  · exact testBit_ite_false (by decide) (by decide)
  · exact testBit_ite_false (by decide) (by decide)
  · exact testBit_ite_false (by decide) (by decide)

/-- Bit 4 is also clear after the register-unwinding adjustment. -/
theorem eventSampleTypeRegs_testBit_read
    (config : perf_event_group_configurer_config_t) (regUnwind : Bool)
    (attr : GroupsAttr) (hsw : config.perfConfig.is_system_wide = false) :
    (eventSampleTypeRegs config regUnwind attr).1.testBit 4 = false := by
  have hbase := eventSampleTypeBase_testBit_read config attr hsw
  cases regUnwind
  · exact hbase
  · have hT : eventSampleTypeRegs config true attr
        = (if eventSampleTypeBase config attr &&& PERF_SAMPLE_CALLCHAIN ≠ 0 then
            (eventSampleTypeBase config attr ||| PERF_SAMPLE_REGS_USER,
              if config.perfConfig.use_64bit_register_set then 0x1ffffffff else 0xffff)
          else (eventSampleTypeBase config attr, 0)) := rfl
    rw [hT]
    by_cases hcc : eventSampleTypeBase config attr &&& PERF_SAMPLE_CALLCHAIN ≠ 0
    · rw [if_pos hcc]
      exact testBit_or_false hbase (by decide)
    · rw [if_neg hcc]
      exact hbase

/-- C3: for every event produced by `initEvent` (any combination of
configuration flags, `is_header`, `requires_leader`, `leader` and caller
attribute), if the produced attribute has `inherit = 1` then its `sample_type`
does not contain `PERF_SAMPLE_READ` and its `read_format` does not contain
`PERF_FORMAT_GROUP`. -/
theorem C3_inherit_excludes_read_and_group
    (config : perf_event_group_configurer_config_t) (regUnwind : Bool)
    (is_header requires_leader : Bool) (type : GroupType) (leader : Bool)
    (key : Int) (attr : GroupsAttr) (hasAuxData : Bool)
    (h : (initEvent config regUnwind is_header requires_leader type leader key
        attr hasAuxData).2.attr.inherit = 1) :
    (initEvent config regUnwind is_header requires_leader type leader key attr
        hasAuxData).2.attr.sample_type &&& PERF_SAMPLE_READ = 0 ∧
    (initEvent config regUnwind is_header requires_leader type leader key attr
        hasAuxData).2.attr.read_format &&& PERF_FORMAT_GROUP = 0 := by
  obtain ⟨hst, hrf, hinh, -, -⟩ := initEvent_attr_projections config regUnwind
    is_header requires_leader type leader key attr hasAuxData
  rw [hinh] at h
  rw [hst, hrf]
  have hui : use_inherit config is_header = true := by
    by_contra hne
    have : use_inherit config is_header = false := by
      cases hcase : use_inherit config is_header
      · rfl
      · exact absurd hcase hne
    simp [initEventAttr, this] at h
  have hsw : config.perfConfig.is_system_wide = false := by
    unfold use_inherit at hui
    cases hcase : config.perfConfig.is_system_wide
    · rfl
    · rw [hcase] at hui; simp at hui
  have hih : is_header = false := by
    unfold use_inherit at hui
    cases hcase : is_header
    · rfl
    · rw [hcase] at hui; simp at hui
  constructor
  · have : (initEventAttr config regUnwind is_header requires_leader leader attr
        hasAuxData).sample_type = (eventSampleTypeRegs config regUnwind attr).1 := rfl
    rw [this]
    have h16 : PERF_SAMPLE_READ = 2 ^ 4 := rfl
    rw [h16]
    exact land_pow_eq_zero (eventSampleTypeRegs_testBit_read config regUnwind attr hsw)
  · have hg : use_read_format_group config is_header requires_leader leader = false := by
      unfold use_read_format_group
      rw [hui]
      simp
    have : (initEventAttr config regUnwind is_header requires_leader leader attr
        hasAuxData).read_format
        = (if use_read_format_group config is_header requires_leader leader
           then PERF_FORMAT_ID ||| PERF_FORMAT_GROUP else PERF_FORMAT_ID) := rfl
    rw [this, hg]
    decide

/-- C3 witness: a non-system-wide, non-header event indeed has `inherit = 1`
and the property holds there. -/
theorem C3_witness :
    (initEvent { cfgNoCtxSwitch with
        perfConfig := { cfgNoCtxSwitch.perfConfig with is_system_wide := false } }
        false false true .PER_CLUSTER_CPU true 0 { sampleType := 1040 } false).2.attr.sample_type
        &&& PERF_SAMPLE_READ = 0 ∧
    (initEvent { cfgNoCtxSwitch with
        perfConfig := { cfgNoCtxSwitch.perfConfig with is_system_wide := false } }
        false false true .PER_CLUSTER_CPU true 0 { sampleType := 1040 } false).2.attr.read_format
        &&& PERF_FORMAT_GROUP = 0 :=
  C3_inherit_excludes_read_and_group
    { cfgNoCtxSwitch with
        perfConfig := { cfgNoCtxSwitch.perfConfig with is_system_wide := false } }
    false false true .PER_CLUSTER_CPU true 0 { sampleType := 1040 } false (by decide)

end perf_event_group_configurer_t

/-! ### C2: leader pinning discipline over `addEvent` sequences -/

/-- One `addEvent` call as issued by a caller. -/
structure AddCall where
  leader : Bool
  key : Int
  attr : GroupsAttr
  hasAuxData : Bool
deriving DecidableEq, Repr

namespace perf_event_group_configurer_t

/-- A sequence of `addEvent` calls on one group; `none` as soon as one call
returns false (callers abort setup on any false return). -/
def runAddEvents (config : perf_event_group_configurer_config_t)
    (regUnwind requires_leader : Bool) (type : GroupType) :
    List perf_event_t → List AddCall → Option (List perf_event_t)
  | evs, [] => some evs
  | evs, c :: cs =>
    let r := addEvent config regUnwind requires_leader type evs c.leader c.key
      c.attr c.hasAuxData
    if r.1 then runAddEvents config regUnwind requires_leader type r.2 cs else none

/-- The pinned and disabled bits produced by `initEvent` are exactly the
leader-discipline bits of line 150-152. -/
theorem initEvent_pinned_disabled
    (config : perf_event_group_configurer_config_t) (regUnwind : Bool)
    (is_header requires_leader : Bool) (type : GroupType) (leader : Bool)
    (key : Int) (attr : GroupsAttr) (hasAuxData : Bool) :
    (initEvent config regUnwind is_header requires_leader type leader key attr
        hasAuxData).2.attr.pinned
      = (if leader || every_attribute_in_own_group config is_header requires_leader
          || is_header then 1 else 0) ∧
    (initEvent config regUnwind is_header requires_leader type leader key attr
        hasAuxData).2.attr.disabled
      = (if leader || every_attribute_in_own_group config is_header requires_leader
          || is_header then 1 else 0) := by
  obtain ⟨-, -, -, hp, hd⟩ := initEvent_attr_projections config regUnwind
    is_header requires_leader type leader key attr hasAuxData
  exact ⟨hp, hd⟩

/-- In system-wide mode a leader-requiring group does not put every attribute
in its own group, so a non-header event is pinned exactly when it leads. -/
theorem every_attribute_system_wide
    (config : perf_event_group_configurer_config_t)
    (hsw : config.perfConfig.is_system_wide = true) :
    every_attribute_in_own_group config false true = false := by
  unfold every_attribute_in_own_group use_inherit
  rw [hsw]
  rfl

/-- Follower invariant: continuing a successful `addEvent` sequence on a
nonempty system-wide leader-requiring group only appends events with
`pinned = 0`. -/
theorem runAddEvents_followers_unpinned
    (config : perf_event_group_configurer_config_t) (regUnwind : Bool)
    (type : GroupType) (cs : List AddCall) :
    ∀ (acc evs : List perf_event_t),
      config.perfConfig.is_system_wide = true →
      acc ≠ [] →
      runAddEvents config regUnwind true type acc cs = some evs →
      ∃ t, evs = acc ++ t ∧ ∀ e ∈ t, e.attr.pinned = 0 := by
  induction cs with
  | nil =>
    intro acc evs _ _ hrun
    refine ⟨[], ?_, by simp⟩
    simpa [runAddEvents] using (by simpa [runAddEvents] using hrun : acc = evs).symm
  | cons c cs ih =>
    intro acc evs hsw hne hrun
    unfold runAddEvents at hrun
    rcases hcl : c.leader with _ | _
    · -- non-leader call: the event is appended with pinned = 0
      have hadd : addEvent config regUnwind true type acc c.leader c.key c.attr
          c.hasAuxData
          = (if acc.length ≥ INT_MAX then (false, acc)
             else
              let r := initEvent config regUnwind false true type c.leader c.key
                c.attr c.hasAuxData
              (r.1, acc ++ [r.2])) := by
        unfold addEvent
        rw [hcl]
        rw [if_neg (by simp)]
      by_cases hlen : acc.length ≥ INT_MAX
      · rw [hadd, if_pos hlen] at hrun
        simp at hrun
      · rw [hadd, if_neg hlen] at hrun
        set r := initEvent config regUnwind false true type c.leader c.key c.attr
          c.hasAuxData with hr
        by_cases hok : r.1 = true
        · rw [if_pos hok] at hrun
          obtain ⟨t, ht, htp⟩ := ih (acc ++ [r.2]) evs hsw (by simp) hrun
          refine ⟨r.2 :: t, by simpa using ht, ?_⟩
          intro e he
          rcases List.mem_cons.mp he with he | he
          · subst he
            have := (initEvent_pinned_disabled config regUnwind false true type
              c.leader c.key c.attr c.hasAuxData).1
            rw [← hr] at this
            rw [this, hcl, every_attribute_system_wide config hsw]
            rfl
          · exact htp e he
        · rw [if_neg hok] at hrun
          simp at hrun
    · -- a second leader call on a nonempty group fails, contradicting success
      have : addEvent config regUnwind true type acc c.leader c.key c.attr
          c.hasAuxData = (false, acc) := by
        unfold addEvent
        rw [hcl]
        rw [if_pos (by simpa [List.isEmpty_iff] using hne)]
      rw [this] at hrun
      simp at hrun

/-- C2 counterexample: the claim omits the system-wide condition. In
application mode (`is_system_wide = false`) `every_attribute_in_own_group`
holds, so after a successful leader-then-follower sequence on a
leader-requiring group the second event also has `pinned = 1`, not 0. -/
theorem C2_counterexample :
    (runAddEvents
        { cfgNoCtxSwitch with
            perfConfig := { cfgNoCtxSwitch.perfConfig with is_system_wide := false } }
        false true .PER_CLUSTER_CPU []
        [⟨true, 0, {}, false⟩, ⟨false, 1, {}, false⟩]).isSome = true ∧
    ((runAddEvents
        { cfgNoCtxSwitch with
            perfConfig := { cfgNoCtxSwitch.perfConfig with is_system_wide := false } }
        false true .PER_CLUSTER_CPU []
        [⟨true, 0, {}, false⟩, ⟨false, 1, {}, false⟩]).getD []).length = 2 ∧
    (((runAddEvents
        { cfgNoCtxSwitch with
            perfConfig := { cfgNoCtxSwitch.perfConfig with is_system_wide := false } }
        false true .PER_CLUSTER_CPU []
        [⟨true, 0, {}, false⟩, ⟨false, 1, {}, false⟩]).getD []).getD 1 {}).attr.pinned
      = 1 := by
  decide

/-- C2 (amended): for a group whose identifier requires a leader, in
system-wide mode, after any successful `addEvent` sequence whose first call
has `leader = true`, the first event has `pinned = 1` and `disabled = 1` and
every other event has `pinned = 0`. (Without the system-wide hypothesis the
property fails: in application mode every event of the group is pinned, see
the counterexample.) -/
theorem C2_leader_pinning
    (config : perf_event_group_configurer_config_t) (regUnwind : Bool)
    (type : GroupType) (c0 : AddCall) (cs : List AddCall)
    (evs : List perf_event_t)
    (hsw : config.perfConfig.is_system_wide = true)
    (hc0 : c0.leader = true)
    (hrun : runAddEvents config regUnwind true type [] (c0 :: cs) = some evs) :
    ∃ e0 t, evs = e0 :: t ∧ e0.attr.pinned = 1 ∧ e0.attr.disabled = 1 ∧
      ∀ e ∈ t, e.attr.pinned = 0 := by
  unfold runAddEvents at hrun
  have hadd : addEvent config regUnwind true type [] c0.leader c0.key c0.attr
      c0.hasAuxData
      = ((initEvent config regUnwind false true type c0.leader c0.key c0.attr
          c0.hasAuxData).1,
        [] ++ [(initEvent config regUnwind false true type c0.leader c0.key
          c0.attr c0.hasAuxData).2]) := by
    unfold addEvent
    rw [if_neg (by simp), if_neg (by simp [INT_MAX])]
  rw [hadd] at hrun
  set r := initEvent config regUnwind false true type c0.leader c0.key c0.attr
    c0.hasAuxData with hr
  by_cases hok : r.1 = true
  · rw [if_pos hok] at hrun
    obtain ⟨t, ht, htp⟩ := runAddEvents_followers_unpinned config regUnwind type
      cs ([] ++ [r.2]) evs hsw (by simp) hrun
    obtain ⟨hp, hd⟩ := initEvent_pinned_disabled config regUnwind false true type
      c0.leader c0.key c0.attr c0.hasAuxData
    rw [← hr] at hp hd
    refine ⟨r.2, t, by simpa using ht, ?_, ?_, htp⟩
    · rw [hp, hc0]; rfl
    · rw [hd, hc0]; rfl
  · rw [if_neg hok] at hrun
    simp at hrun

/-- C2 witness: the amended statement at a concrete system-wide run of a
leader call followed by one follower call. -/
theorem C2_witness :
    ∃ e0 t,
      (runAddEvents cfgNoCtxSwitch false true .PER_CLUSTER_CPU []
          [⟨true, 0, {}, false⟩, ⟨false, 1, {}, false⟩]).getD []
        = e0 :: t ∧ e0.attr.pinned = 1 ∧ e0.attr.disabled = 1 ∧
      ∀ e ∈ t, e.attr.pinned = 0 :=
  C2_leader_pinning cfgNoCtxSwitch false .PER_CLUSTER_CPU ⟨true, 0, {}, false⟩
    [⟨false, 1, {}, false⟩]
    ((runAddEvents cfgNoCtxSwitch false true .PER_CLUSTER_CPU []
        [⟨true, 0, {}, false⟩, ⟨false, 1, {}, false⟩]).getD [])
    rfl rfl (by decide)

end perf_event_group_configurer_t

/-! ### C5: the tracepoint-driven CPU group leader -/

namespace perf_event_group_configurer_t

/-- C5: when `createCpuGroupLeader` runs on an empty group with
`schedSwitchId = 42`, `is_system_wide = true` and
`can_access_tracepoints = true`, it succeeds and the first produced event has
`type = PERF_TYPE_TRACEPOINT`, `config = 42`, `sample_period = 1`, a sample
type containing `PERF_SAMPLE_TIME`, `PERF_SAMPLE_TID` and `PERF_SAMPLE_RAW`,
`pinned = 1`, `disabled = 1`, `inherit = 0` and
`read_format = PERF_FORMAT_ID ||| PERF_FORMAT_GROUP`. -/
theorem C5_tracepoint_cpu_group_leader
    (config : perf_event_group_configurer_config_t) (regUnwind : Bool) (dk : Int)
    (htp : config.perfConfig.can_access_tracepoints = true)
    (hsw : config.perfConfig.is_system_wide = true)
    (hid : config.schedSwitchId = 42) :
    (createCpuGroupLeader config regUnwind [] dk).1 = true ∧
    ((createCpuGroupLeader config regUnwind [] dk).2.1.head?.map
        fun e => e.attr.type) = some PERF_TYPE_TRACEPOINT ∧
    ((createCpuGroupLeader config regUnwind [] dk).2.1.head?.map
        fun e => e.attr.config) = some 42 ∧
    ((createCpuGroupLeader config regUnwind [] dk).2.1.head?.map
        fun e => e.attr.sample_period) = some 1 ∧
    ((createCpuGroupLeader config regUnwind [] dk).2.1.head?.map
        fun e => e.attr.sample_type &&& (PERF_SAMPLE_TIME ||| PERF_SAMPLE_TID ||| PERF_SAMPLE_RAW))
      = some (PERF_SAMPLE_TIME ||| PERF_SAMPLE_TID ||| PERF_SAMPLE_RAW) ∧
    ((createCpuGroupLeader config regUnwind [] dk).2.1.head?.map
        fun e => e.attr.pinned) = some 1 ∧
    ((createCpuGroupLeader config regUnwind [] dk).2.1.head?.map
        fun e => e.attr.disabled) = some 1 ∧
    ((createCpuGroupLeader config regUnwind [] dk).2.1.head?.map
        fun e => e.attr.inherit) = some 0 ∧
    ((createCpuGroupLeader config regUnwind [] dk).2.1.head?.map
        fun e => e.attr.read_format) = some (PERF_FORMAT_ID ||| PERF_FORMAT_GROUP) := by
  obtain ⟨⟨sw, hsi, hclk, hcomm, hctx, hdummy, hexcb, catp, u64, exk⟩,
    ⟨dbs, abs'⟩, ekev, bd, sr, ep, ssid, ssk, dkc⟩ := config
  dsimp only at htp hsw hid
  subst htp; subst hsw; subst hid
  have hA : ((4 ||| 1042 &&& 18446744073709551615 ||| 67 ||| 256 : Nat) &&& 1030)
      = 1030 := by decide
  have hB : ((4 ||| 1042 &&& 18446744073709551615 ||| 65536 ||| 256 : Nat) &&& 1030)
      = 1030 := by decide
  have hC : ((4 ||| 1042 &&& 18446744073709551615 ||| 67 ||| 256 : Nat) &&& 32)
      = 0 := by decide
  have hD : ((4 ||| 1042 &&& 18446744073709551615 ||| 65536 ||| 256 : Nat) &&& 32)
      = 0 := by decide
  rcases sr with _ | n <;> cases ep <;> cases hsi <;> cases regUnwind <;>
    refine ⟨?_, ?_, ?_, ?_, ?_, ?_, ?_, ?_, ?_⟩ <;>
    first
      | rfl
      | simp [hA, hB, hC, hD,
          createCpuGroupLeader, createCpuGroupLeaderTiers, cpuLeaderBaseAttr,
          addEvent, initEvent, initEventAttr, eventSampleTypeRegs, eventSampleTypeBase,
          use_inherit, every_attribute_in_own_group, use_read_format_group,
          should_exclude_kernel, requiresLeader, nextDummyKey, UNKNOWN_TRACEPOINT_ID,
          UINT64_MAX, INT_MAX, PERF_SAMPLE_TIME, PERF_SAMPLE_TID, PERF_SAMPLE_RAW,
          PERF_SAMPLE_READ, PERF_SAMPLE_IP, PERF_SAMPLE_ID, PERF_SAMPLE_IDENTIFIER,
          PERF_SAMPLE_PERIOD, PERF_SAMPLE_CALLCHAIN, PERF_TYPE_TRACEPOINT,
          PERF_TYPE_SOFTWARE, PERF_COUNT_SW_CPU_CLOCK]

/-- C5 witness: the scenario evaluated at a concrete configuration. -/
theorem C5_witness :
    (createCpuGroupLeader { cfgNoCtxSwitch with schedSwitchId := 42 } false [] (-5)).1
      = true ∧
    ((createCpuGroupLeader { cfgNoCtxSwitch with schedSwitchId := 42 } false [] (-5)).2.1.head?.map
        fun e => e.attr.type) = some PERF_TYPE_TRACEPOINT ∧
    ((createCpuGroupLeader { cfgNoCtxSwitch with schedSwitchId := 42 } false [] (-5)).2.1.head?.map
        fun e => e.attr.config) = some 42 ∧
    ((createCpuGroupLeader { cfgNoCtxSwitch with schedSwitchId := 42 } false [] (-5)).2.1.head?.map
        fun e => e.attr.sample_period) = some 1 ∧
    ((createCpuGroupLeader { cfgNoCtxSwitch with schedSwitchId := 42 } false [] (-5)).2.1.head?.map
        fun e => e.attr.sample_type &&& (PERF_SAMPLE_TIME ||| PERF_SAMPLE_TID ||| PERF_SAMPLE_RAW))
      = some (PERF_SAMPLE_TIME ||| PERF_SAMPLE_TID ||| PERF_SAMPLE_RAW) ∧
    ((createCpuGroupLeader { cfgNoCtxSwitch with schedSwitchId := 42 } false [] (-5)).2.1.head?.map
        fun e => e.attr.pinned) = some 1 ∧
    ((createCpuGroupLeader { cfgNoCtxSwitch with schedSwitchId := 42 } false [] (-5)).2.1.head?.map
        fun e => e.attr.disabled) = some 1 ∧
    ((createCpuGroupLeader { cfgNoCtxSwitch with schedSwitchId := 42 } false [] (-5)).2.1.head?.map
        fun e => e.attr.inherit) = some 0 ∧
    ((createCpuGroupLeader { cfgNoCtxSwitch with schedSwitchId := 42 } false [] (-5)).2.1.head?.map
        fun e => e.attr.read_format) = some (PERF_FORMAT_ID ||| PERF_FORMAT_GROUP) :=
  C5_tracepoint_cpu_group_leader { cfgNoCtxSwitch with schedSwitchId := 42 } false
    (-5) rfl rfl rfl

end perf_event_group_configurer_t

/-! ### C9: the max-core enumerator -/

namespace cpu_utils

/-- Decimal text (most-significant digit first) of a natural number, used to
build the synthetic `cpu<N>` directory entries. -/
def decRepr (n : Nat) : List Char :=
  if n = 0 then ['0']
  else (Nat.digits 10 n).reverse.map fun d => Char.ofNat (48 + d)

/-- One synthetic sysfs entry `cpu<n>`. -/
def cpuEntry (n : Nat) : List Char := "cpu".toList ++ decRepr n

theorem digitVal_ofNat (d : Nat) (h : d < 10) :
    digitVal (Char.ofNat (48 + d)) = some d := by
  interval_cases d <;> decide

theorem parseDigitsAux_digitChars (ds : List Nat) :
    ∀ acc : Nat, (∀ d ∈ ds, d < 10) →
    parseDigitsAux 10 acc (ds.map fun d => Char.ofNat (48 + d))
      = some (ds.foldl (fun a d => a * 10 + d) acc) := by
  induction ds with
  | nil => intro acc _; rfl
  | cons d ds ih =>
    intro acc h
    have hd : d < 10 := h d (by simp)
    simp only [List.map_cons, parseDigitsAux, digitVal_ofNat d hd]
    rw [if_pos hd, List.foldl_cons]
    exact ih (acc * 10 + d) fun x hx => h x (by simp [hx])

theorem foldl_reverse_digits (L : List Nat) :
    ∀ acc : Nat, L.reverse.foldl (fun a d => a * 10 + d) acc
      = acc * 10 ^ L.length + Nat.ofDigits 10 L := by
  induction L with
  | nil => intro acc; simp
  | cons d L ih =>
    intro acc
    rw [List.reverse_cons, List.foldl_append, ih acc]
    simp only [List.foldl_cons, List.foldl_nil, List.length_cons, Nat.ofDigits_cons]
    ring

theorem parseDigits_decRepr (n : Nat) : parseDigits 10 (decRepr n) = some n := by
  by_cases h0 : n = 0
  · subst h0; decide
  · unfold decRepr
    rw [if_neg h0]
    have hlt : ∀ d ∈ (Nat.digits 10 n).reverse, d < 10 := by
      intro d hd
      exact Nat.digits_lt_base (by norm_num) (List.mem_reverse.mp hd)
    rcases hrev : (Nat.digits 10 n).reverse with _ | ⟨d, L⟩
    · exfalso
      have : Nat.digits 10 n = [] := by
        have := congrArg List.reverse hrev
        simpa using this
      exact h0 (by simpa using Nat.digits_eq_nil_iff_eq_zero.mp this)
    · have hd : d < 10 := hlt d (by rw [hrev]; simp)
      simp only [List.map_cons, parseDigits, digitVal_ofNat d hd]
      rw [if_pos hd]
      rw [parseDigitsAux_digitChars L d fun x hx => hlt x (by rw [hrev]; simp [hx])]
      have hfold : (d :: L).foldl (fun a d => a * 10 + d) 0
          = L.foldl (fun a d => a * 10 + d) d := by
        simp
      have := foldl_reverse_digits (Nat.digits 10 n) 0
      rw [hrev] at this
      rw [hfold.symm, this]
      simp [Nat.ofDigits_digits]

theorem skipWs_decRepr (n : Nat) : skipWs (decRepr n) = decRepr n := by
  by_cases h0 : n = 0
  · subst h0; decide
  · unfold decRepr
    rw [if_neg h0]
    rcases hrev : (Nat.digits 10 n).reverse with _ | ⟨d, L⟩
    · simp [skipWs]
    · have hd : d < 10 :=
        Nat.digits_lt_base (by norm_num) (List.mem_reverse.mp (by rw [hrev]; simp))
      simp only [List.map_cons, skipWs, List.dropWhile_cons]
      rw [if_neg ?_]
      intro hc
      interval_cases d <;> revert hc <;> decide

theorem stringToLong_decRepr (n : Nat) : stringToLong (decRepr n) = some (n : Int) := by
  unfold stringToLong parseSigned
  rw [skipWs_decRepr]
  by_cases h0 : n = 0
  · subst h0; decide
  · have hne : decRepr n ≠ [] := by
      unfold decRepr
      rw [if_neg h0]
      rcases hrev : (Nat.digits 10 n).reverse with _ | ⟨d, L⟩
      · intro h
        have : Nat.digits 10 n = [] := by simpa using congrArg List.reverse hrev
        exact h0 (by simpa using Nat.digits_eq_nil_iff_eq_zero.mp this)
      · simp
    rcases hd : decRepr n with _ | ⟨c, rest⟩
    · exact absurd hd hne
    · have hc : ∃ d, d < 10 ∧ c = Char.ofNat (48 + d) := by
        unfold decRepr at hd
        rw [if_neg h0] at hd
        rcases hrev : (Nat.digits 10 n).reverse with _ | ⟨d, L⟩
        · rw [hrev] at hd; simp at hd
        · rw [hrev] at hd
          simp only [List.map_cons, List.cons.injEq] at hd
          exact ⟨d, Nat.digits_lt_base (by norm_num)
            (List.mem_reverse.mp (by rw [hrev]; simp)), hd.1.symm⟩
      obtain ⟨d, hdlt, hcd⟩ := hc
      have hminus : ¬ c = '-' := by subst hcd; interval_cases d <;> decide
      have hplus : ¬ c = '+' := by subst hcd; interval_cases d <;> decide
      dsimp only
      rw [if_neg hminus, if_neg hplus, ← hd, parseDigits_decRepr n]
      rfl

theorem cpu_isPrefixOf_cpuEntry (n : Nat) :
    (("cpu".toList).isPrefixOf (cpuEntry n)) = true := by
  unfold cpuEntry
  rw [List.isPrefixOf_iff_prefix]
  exact List.prefix_append _ _

theorem cpuEntry_drop (n : Nat) : (cpuEntry n).drop 3 = decRepr n := rfl

theorem getMaxCoreNumLoop_range (k : Nat) :
    ∀ s : Nat, getMaxCoreNumLoop ((s : Nat) : Int) ((List.range' s k).map cpuEntry)
      = ((s + k : Nat) : Int) := by
  induction k with
  | zero => intro s; simp [getMaxCoreNumLoop]
  | succ k ih =>
    intro s
    rw [List.range'_succ, List.map_cons]
    unfold getMaxCoreNumLoop
    rw [cpu_isPrefixOf_cpuEntry s, if_pos rfl, cpuEntry_drop, stringToLong_decRepr]
    dsimp only
    rw [if_pos le_rfl]
    have : ((s : Int) + 1) = ((s + 1 : Nat) : Int) := by push_cast; ring
    rw [this, ih (s + 1)]
    congr 1
    omega

/-- C9: the enumerator returns N on a sysfs root whose entries are exactly
`cpu0 .. cpu(N-1)` for every N ≥ 1, and 11 on the entry set
`{cpu0, cpu1, cpu2, cpu10, cpufreq}` (non-decimal suffixes are ignored and the
result is max(n)+1 over the matching entries). -/
theorem C9_getMaxCoreNum :
    (∀ N : Nat, 1 ≤ N → getMaxCoreNum ((List.range N).map cpuEntry) = some N) ∧
    getMaxCoreNum ["cpu0".toList, "cpu1".toList, "cpu2".toList, "cpu10".toList,
      "cpufreq".toList] = some 11 := by
  constructor
  · intro N hN
    unfold getMaxCoreNum
    rcases N with _ | M
    · omega
    · rw [List.range_eq_range', List.range'_succ, List.map_cons]
      have h1 : getMaxCoreNumLoop (-1) (cpuEntry 0 :: (List.range' 1 M).map cpuEntry)
          = ((1 + M : Nat) : Int) := by
        unfold getMaxCoreNumLoop
        rw [cpu_isPrefixOf_cpuEntry 0, if_pos rfl, cpuEntry_drop, stringToLong_decRepr]
        dsimp only
        rw [if_pos (by norm_num)]
        have h01 : ((0 : Nat) : Int) + 1 = ((1 : Nat) : Int) := by norm_num
        rw [h01]
        exact getMaxCoreNumLoop_range M 1
      rw [h1]
      rw [if_neg (by omega)]
      congr 1
      omega
  · decide

end cpu_utils

/-! ### List helpers for the `cpuIds` span -/

namespace cpu_utils

theorem listGetD_set_self {l : List Int} {i : Nat} {a : Int} (h : i < l.length) :
    (l.set i a).getD i 0 = a := by
  simp [List.getD, List.getElem?_set_self, h]

theorem listGetD_set_ne {l : List Int} {i j : Nat} {a : Int} (h : i ≠ j) :
    (l.set i a).getD j 0 = l.getD j 0 := by
  simp [List.getD, List.getElem?_set_ne h]

theorem listGetD_neg_one_lt {l : List Int} {i : Nat} (h : l.getD i 0 = -1) :
    i < l.length := by
  by_contra hn
  rw [show l.getD i 0 = 0 from by
    simp [List.getD, List.getElem?_eq_none (by omega : l.length ≤ i)]] at h
  exact absurd h (by decide)

/-- Pointwise description of the out-of-place fill loop: index `i` receives
`v` exactly when it lies in the window `[p, p+n)` and still holds -1. -/
theorem fillLoop_getD (v : Int) (n : Nat) :
    ∀ (ids : List Int) (p i : Nat),
      (fillLoop v ids p n).getD i 0
        = if p ≤ i ∧ i < p + n ∧ ids.getD i 0 = -1 then v else ids.getD i 0 := by
  induction n with
  | zero =>
    intro ids p i
    rw [if_neg (by omega)]
    rfl
  | succ n ih =>
    intro ids p i
    unfold fillLoop
    rw [ih]
    by_cases hip : i = p
    · subst hip
      by_cases hm : ids.getD i 0 = -1
      · rw [if_pos hm]
        rw [if_neg (by omega)]
        rw [listGetD_set_self (listGetD_neg_one_lt hm)]
        rw [if_pos ⟨le_rfl, by omega, hm⟩]
      · rw [if_neg hm]
        rw [if_neg (by intro h; exact absurd h.2.2 hm)]
        rw [if_neg (by intro h; exact absurd h.2.2 hm)]
    · have hset : (if ids.getD p 0 = -1 then ids.set p v else ids).getD i 0
          = ids.getD i 0 := by
        split
        · exact listGetD_set_ne fun h => hip h.symm
        · rfl
      rw [hset]
      by_cases hcond : p ≤ i ∧ i < p + (n + 1) ∧ ids.getD i 0 = -1
      · rw [if_pos hcond, if_pos (by omega)]
      · rw [if_neg hcond, if_neg (by intro h; exact hcond ⟨by omega, by omega, h.2.2⟩)]

/-- Composition of the parse loop over concatenated input. -/
theorem parseLoop_append (justGet : Bool) (l1 l2 : List CpuInfoLine) :
    ∀ st, parseLoop justGet st (l1 ++ l2)
      = (match parseLoop justGet st l1 with
         | .endOfInput st' => parseLoop justGet st' l2
         | .ret h c => .ret h c
         | .fatal => .fatal) := by
  induction l1 with
  | nil => intro st; rfl
  | cons t ts ih =>
    intro st
    rw [List.cons_append]
    have hL : parseLoop justGet st (t :: (ts ++ l2))
        = (match parseStep justGet st t with
           | .cont st' => parseLoop justGet st' (ts ++ l2)
           | .ret h c => .ret h c
           | .fatal => .fatal) := rfl
    have hR : parseLoop justGet st (t :: ts)
        = (match parseStep justGet st t with
           | .cont st' => parseLoop justGet st' ts
           | .ret h c => .ret h c
           | .fatal => .fatal) := rfl
    rw [hL, hR]
    cases parseStep justGet st t with
    | cont st' => exact ih st'
    | ret h c => rfl
    | fatal => rfl

/-! ### C6: a second `processor:` line in a section -/

/-- Lines that may follow the invalidating `processor:` line inside the same
section: well-formed implementer/part lines and unrecognised lines. -/
def isInvalidatedSectionTail (t : CpuInfoLine) : Bool :=
  match t with
  | .impl (some _) => true
  | .part (some _) => true
  | .other => true
  | _ => false

/-- Processing implementer/part/other lines with the processor unknown leaves
`cpuIds` untouched (the values go to the out-of-place accumulator). -/
theorem parseLoop_unknown_processor_tail (justGet : Bool) (ts : List CpuInfoLine) :
    ∀ st : ParseState, st.processor = none →
    (∀ t ∈ ts, isInvalidatedSectionTail t = true) →
    ∃ st', parseLoop justGet st ts = .endOfInput st' ∧
      st'.cpuIds = st.cpuIds ∧ st'.processor = none ∧
      (st.invalidFormat = true → st'.invalidFormat = true) := by
  induction ts with
  | nil => intro st hp _; exact ⟨st, rfl, rfl, hp, fun h => h⟩
  | cons t ts ih =>
    intro st hp hts
    have ht := hts t (by simp)
    have hts' : ∀ t' ∈ ts, isInvalidatedSectionTail t' = true :=
      fun t' ht' => hts t' (List.mem_cons_of_mem t ht')
    cases t with
    | blank => simp [isInvalidatedSectionTail] at ht
    | hw v => simp [isInvalidatedSectionTail] at ht
    | proc v => simp [isInvalidatedSectionTail] at ht
    | other =>
      obtain ⟨st', h1, h2, h3, h4⟩ := ih st hp hts'
      exact ⟨st', h1, h2, h3, h4⟩
    | impl v =>
      rcases v with _ | w
      · simp [isInvalidatedSectionTail] at ht
      · rcases w with _ | x
        · obtain ⟨st', h1, h2, h3, h4⟩ := ih st hp hts'
          exact ⟨st', h1, h2, h3, h4⟩
        · have hstep : parseStep justGet st (.impl (some (some x)))
              = .cont { st with outOfPlaceCpuId := setImplementer st.outOfPlaceCpuId x,
                                invalidFormat := true } := by
            unfold parseStep
            rw [hp]
          obtain ⟨st', h1, h2, h3, h4⟩ := ih
            { st with outOfPlaceCpuId := setImplementer st.outOfPlaceCpuId x,
                      invalidFormat := true } (by simpa using hp) hts'
          refine ⟨st', ?_, by simpa using h2, h3, fun _ => h4 rfl⟩
          unfold parseLoop
          rw [hstep]
          exact h1
    | part v =>
      rcases v with _ | w
      · simp [isInvalidatedSectionTail] at ht
      · rcases w with _ | y
        · obtain ⟨st', h1, h2, h3, h4⟩ := ih st hp hts'
          exact ⟨st', h1, h2, h3, h4⟩
        · have hstep : parseStep justGet st (.part (some (some y)))
              = .cont { st with outOfPlaceCpuId := setPart st.outOfPlaceCpuId y,
                                invalidFormat := true } := by
            unfold parseStep
            rw [hp]
          obtain ⟨st', h1, h2, h3, h4⟩ := ih
            { st with outOfPlaceCpuId := setPart st.outOfPlaceCpuId y,
                      invalidFormat := true } (by simpa using hp) hts'
          refine ⟨st', ?_, by simpa using h2, h3, fun _ => h4 rfl⟩
          unfold parseLoop
          rw [hstep]
          exact h1

end cpu_utils

namespace cpu_utils

/-- C6 counterexample: in a section with two `processor:` lines, the
`CPU implementer:` value read between the two lines is bound to the first
processor's entry, so the section is not fully invalidated: with
`cpuIds = [-1, -1]` the parse yields `cpuIds[0] = 0x41 <<< 12 = 266240`. -/
theorem C6_counterexample :
    parseProcCpuInfo false [-1, -1]
      [("processor\t: 0\n").toList, ("CPU implementer\t: 0x41\n").toList,
        ("processor\t: 1\n").toList]
      = ParseOutcome.ok [] [266240, -1] ∧ (266240 : Int) ≠ -1 := by
  constructor
  · decide
  · decide

/-- C6 (amended): from the second `processor:` line of a section onwards the
section is invalidated: the processor binding becomes unknown, the format is
marked invalid, and the well-formed implementer/part values in the rest of the
section leave `cpuIds` unchanged (they are accumulated out-of-place). Values
read between the first and the second `processor:` line, however, do bind to
the first processor (see the counterexample), so no earlier binding is
undone. -/
theorem C6_second_processor_invalidates
    (justGet : Bool) (st : ParseState) (idv : Option Int) (ts : List CpuInfoLine)
    (hfps : st.foundProcessorInSection = true)
    (hts : ∀ t ∈ ts, isInvalidatedSectionTail t = true) :
    ∃ st', parseLoop justGet st (.proc (some idv) :: ts) = .endOfInput st' ∧
      st'.cpuIds = st.cpuIds ∧ st'.processor = none ∧ st'.invalidFormat = true := by
  rcases idv with _ | pid
  · have hstep : parseStep justGet st (.proc (some none))
        = .cont { st with processor := none, invalidFormat := true } := by
      unfold parseStep
      dsimp only
      rw [hfps]
      rfl
    obtain ⟨st', h1, h2, h3, h4⟩ := parseLoop_unknown_processor_tail justGet ts
      { st with processor := none, invalidFormat := true } rfl hts
    refine ⟨st', ?_, by simpa using h2, h3, h4 rfl⟩
    unfold parseLoop
    rw [hstep]
    exact h1
  · have hstep : parseStep justGet st (.proc (some (some pid)))
        = .cont { st with
            minProcessor := if sizeT pid < st.minProcessor then sizeT pid
                            else st.minProcessor,
            maxProcessor := if st.maxProcessor < sizeT pid then sizeT pid
                            else st.maxProcessor,
            processor := none, invalidFormat := true } := by
      unfold parseStep
      dsimp only
      rw [hfps]
      rfl
    obtain ⟨st', h1, h2, h3, h4⟩ := parseLoop_unknown_processor_tail justGet ts
      { st with
          minProcessor := if sizeT pid < st.minProcessor then sizeT pid
                          else st.minProcessor,
          maxProcessor := if st.maxProcessor < sizeT pid then sizeT pid
                          else st.maxProcessor,
          processor := none, invalidFormat := true } rfl hts
    refine ⟨st', ?_, by simpa using h2, h3, h4 rfl⟩
    unfold parseLoop
    rw [hstep]
    exact h1

/-- C6 witness: the amended statement on a concrete mid-section state with a
pending processor binding, a second processor line, and one following
implementer line. -/
theorem C6_witness :
    ∃ st', parseLoop false
        { hardwareName := [], foundCoreName := false, processor := some 0,
          minProcessor := 0, maxProcessor := 0, foundProcessorInSection := true,
          outOfPlaceCpuId := -1, invalidFormat := false, cpuIds := [-1, -1] }
        (.proc (some (some 1)) :: [.impl (some (some 65))]) = .endOfInput st' ∧
      st'.cpuIds
        = ParseState.cpuIds
            { hardwareName := [], foundCoreName := false, processor := some 0,
              minProcessor := 0, maxProcessor := 0, foundProcessorInSection := true,
              outOfPlaceCpuId := -1, invalidFormat := false, cpuIds := [-1, -1] } ∧
      st'.processor = none ∧ st'.invalidFormat = true :=
  C6_second_processor_invalidates false
    { hardwareName := [], foundCoreName := false, processor := some 0,
      minProcessor := 0, maxProcessor := 0, foundProcessorInSection := true,
      outOfPlaceCpuId := -1, invalidFormat := false, cpuIds := [-1, -1] }
    (some 1) [.impl (some (some 65))] rfl (by decide)

end cpu_utils

/-! ### C8: a well-formed section binds `cpuIds[k]` -/

namespace cpu_utils

theorem sizeT_natCast (k : Nat) (h : k < 2 ^ 64) : sizeT (k : Int) = k := by
  unfold sizeT
  omega

/-- C8 counterexample: the claim holds only when `cpuIds[k]` still holds -1.
With `cpuIds = [4]` and a well-formed section `processor: 0`,
`CPU implementer: 0x41`, `CPU part: 0xd03`, the OR-accumulating setters
produce `4 ||| (0x41 <<< 12) ||| 0xd03 = 269575`, not
`(0x41 <<< 12) ||| 0xd03 = 269571`. -/
theorem C8_counterexample :
    parseProcCpuInfo false [4]
      [("processor\t: 0\n").toList, ("CPU implementer\t: 0x41\n").toList,
        ("CPU part\t: 0xd03\n").toList]
      = ParseOutcome.ok [] [269575] ∧
    (269575 : Int) ≠ Int.lor ((65 : Int) <<< (12 : Int)) 3331 := by
  constructor
  · decide
  · decide

/-- C8 (amended): if the classified input is some prefix followed by a
well-formed section `processor: k` / `CPU implementer: x` / `CPU part: y`
(with nonnegative values, written as naturals `m`, `p`), the prefix parses to
a state in which no processor binding is open and entry `k` still holds -1,
and `k` is within range, then after `parseProcCpuInfo` returns normally
`cpuIds[k] = (x <<< 12) ||| y`. (Without the -1 precondition the claim fails,
because the setters OR into the previous value - see the counterexample.) -/
theorem C8_section_binds (cpuIds : List Int) (lines : List (List Char))
    (pre : List CpuInfoLine) (k m p : Nat) (st1 : ParseState)
    (hmap : lines.map classifyLine
      = pre ++ [.proc (some (some (k : Int))), .impl (some (some (m : Int))),
                .part (some (some (p : Int)))])
    (hpre : parseLoop false (ParseState.init cpuIds) pre = .endOfInput st1)
    (hfps : st1.foundProcessorInSection = false)
    (hk64 : k < 2 ^ 64)
    (hk : k < st1.cpuIds.length)
    (hkunset : st1.cpuIds.getD k 0 = -1) :
    ∃ hw ids', parseProcCpuInfo false cpuIds lines = .ok hw ids' ∧
      ids'.getD k 0 = Int.lor ((m : Int) <<< (12 : Int)) (p : Int) := by
  have hstepP : parseStep false st1 (.proc (some (some (k : Int))))
      = .cont { st1 with
          minProcessor := if k < st1.minProcessor then k else st1.minProcessor,
          maxProcessor := if st1.maxProcessor < k then k else st1.maxProcessor,
          processor := some k, foundProcessorInSection := true } := by
    unfold parseStep
    dsimp only
    rw [sizeT_natCast k hk64, hfps]
    rw [if_neg (by decide), if_neg (by omega)]
  have hrun : parseLoop false (ParseState.init cpuIds) (lines.map classifyLine)
      = .endOfInput { st1 with
          minProcessor := if k < st1.minProcessor then k else st1.minProcessor,
          maxProcessor := if st1.maxProcessor < k then k else st1.maxProcessor,
          processor := some k, foundProcessorInSection := true,
          cpuIds :=
            (st1.cpuIds.set k
                (setImplementer (st1.cpuIds.getD k 0) (m : Int))).set k
              (setPart
                ((st1.cpuIds.set k
                    (setImplementer (st1.cpuIds.getD k 0) (m : Int))).getD k 0)
                (p : Int)) } := by
    rw [hmap, parseLoop_append, hpre]
    show parseLoop false st1 _ = _
    unfold parseLoop
    rw [hstepP]
    rfl
  -- the value written at index k
  have hv1 : setImplementer (st1.cpuIds.getD k 0) (m : Int)
      = ((m <<< 12 : Nat) : Int) := by
    rw [hkunset]
    unfold setImplementer
    rw [if_pos rfl]
    show Int.lor ((0 : Nat) : Int) ((m <<< 12 : Nat) : Int) = _
    rw [show Int.lor ((0 : Nat) : Int) ((m <<< 12 : Nat) : Int)
        = (((0 ||| m <<< 12 : Nat)) : Int) from rfl]
    simp
  have hgetset : (st1.cpuIds.set k
      (setImplementer (st1.cpuIds.getD k 0) (m : Int))).getD k 0
      = ((m <<< 12 : Nat) : Int) := by
    rw [listGetD_set_self hk, hv1]
  have hv2 : setPart
      ((st1.cpuIds.set k
          (setImplementer (st1.cpuIds.getD k 0) (m : Int))).getD k 0) (p : Int)
      = ((m <<< 12 ||| p : Nat) : Int) := by
    rw [hgetset]
    unfold setPart
    rw [if_neg (by omega)]
    rfl
  have hval : ((st1.cpuIds.set k
      (setImplementer (st1.cpuIds.getD k 0) (m : Int))).set k
        (setPart
          ((st1.cpuIds.set k
              (setImplementer (st1.cpuIds.getD k 0) (m : Int))).getD k 0)
          (p : Int))).getD k 0
      = ((m <<< 12 ||| p : Nat) : Int) := by
    rw [listGetD_set_self (by simpa using hk), hv2]
  have htarget : Int.lor ((m : Int) <<< (12 : Int)) (p : Int)
      = ((m <<< 12 ||| p : Nat) : Int) := rfl
  refine ⟨(finalize { st1 with
        minProcessor := if k < st1.minProcessor then k else st1.minProcessor,
        maxProcessor := if st1.maxProcessor < k then k else st1.maxProcessor,
        processor := some k, foundProcessorInSection := true,
        cpuIds :=
          (st1.cpuIds.set k
              (setImplementer (st1.cpuIds.getD k 0) (m : Int))).set k
            (setPart
              ((st1.cpuIds.set k
                  (setImplementer (st1.cpuIds.getD k 0) (m : Int))).getD k 0)
              (p : Int)) }).1, (finalize { st1 with
        minProcessor := if k < st1.minProcessor then k else st1.minProcessor,
        maxProcessor := if st1.maxProcessor < k then k else st1.maxProcessor,
        processor := some k, foundProcessorInSection := true,
        cpuIds :=
          (st1.cpuIds.set k
              (setImplementer (st1.cpuIds.getD k 0) (m : Int))).set k
            (setPart
              ((st1.cpuIds.set k
                  (setImplementer (st1.cpuIds.getD k 0) (m : Int))).getD k 0)
              (p : Int)) }).2, ?_, ?_⟩
  · unfold parseProcCpuInfo
    rw [hrun]
  · rw [htarget]
    have hfill : ∀ (v : Int) (lo n : Nat),
        (fillLoop v
            ((st1.cpuIds.set k
                (setImplementer (st1.cpuIds.getD k 0) (m : Int))).set k
              (setPart
                ((st1.cpuIds.set k
                    (setImplementer (st1.cpuIds.getD k 0) (m : Int))).getD k 0)
                (p : Int))) lo n).getD k 0
          = ((m <<< 12 ||| p : Nat) : Int) := by
      intro v lo n
      rw [fillLoop_getD]
      rw [if_neg (by
        intro hcond
        have hlast := hcond.2.2
        rw [hval] at hlast
        omega)]
      exact hval
    unfold finalize
    dsimp only
    rw [apply_ite (fun pr : List Char × List Int => pr.2.getD k 0)]
    rw [hfill, hval, ite_self]

end cpu_utils

namespace cpu_utils

/-- C8 witness: the amended statement at a concrete single-section input with
`cpuIds = [-1]`. -/
theorem C8_witness :
    ∃ hw ids', parseProcCpuInfo false [-1]
        [("processor\t: 0\n").toList, ("CPU implementer\t: 0x41\n").toList,
          ("CPU part\t: 0xd03\n").toList] = .ok hw ids' ∧
      ids'.getD 0 0 = Int.lor (((65 : Nat) : Int) <<< (12 : Int)) ((3331 : Nat) : Int) :=
  C8_section_binds [-1]
    [("processor\t: 0\n").toList, ("CPU implementer\t: 0x41\n").toList,
      ("CPU part\t: 0xd03\n").toList]
    [] 0 65 3331 (ParseState.init [-1]) (by decide) rfl rfl (by decide) (by decide)
    (by decide)

end cpu_utils

/-! ### C7: the pre-3.8 out-of-place fill -/

namespace cpu_utils

/-- Pre-3.8-style classified input. The boolean tracks whether a `processor:`
line has already been seen in the current section; the predicate requires that
every implementer/part value occurs with no preceding `processor:` line in its
section, that every `processor:` line carries a convertible in-range value,
and that every recognised line has a well-formed colon layout. -/
def PreThreeEight (size : Nat) : Bool → List CpuInfoLine → Prop
  | _, [] => True
  | _, .blank :: ts => PreThreeEight size false ts
  | _, .proc v :: ts =>
      (∃ q : Nat, v = some (some (q : Int)) ∧ q < size ∧ q < 2 ^ 64) ∧
      PreThreeEight size true ts
  | b, .impl v :: ts =>
      b = false ∧ (∃ x : Int, v = some (some x)) ∧ PreThreeEight size b ts
  | b, .part v :: ts =>
      b = false ∧ (∃ y : Int, v = some (some y)) ∧ PreThreeEight size b ts
  | b, .hw v :: ts => (∃ s, v = some s) ∧ PreThreeEight size b ts
  | b, .other :: ts => PreThreeEight size b ts

/-- Implementer/part lines (the ones feeding the out-of-place accumulator). -/
def isImplPart : CpuInfoLine → Bool
  | .impl _ => true
  | .part _ => true
  | _ => false

/-- Effect of one out-of-place implementer/part line on the accumulator. -/
def oopStep (acc : Int) : CpuInfoLine → Int
  | .impl (some (some x)) => setImplementer acc x
  | .part (some (some y)) => setPart acc y
  | _ => acc

/-- The processor numbers observed by the min/max tracking. -/
def procNats : List CpuInfoLine → List Nat
  | [] => []
  | .proc (some (some pid)) :: ts => sizeT pid :: procNats ts
  | _ :: ts => procNats ts

/-- The `minProcessor` update of lines 173-176. -/
def minStep (acc v : Nat) : Nat := if v < acc then v else acc

/-- The `maxProcessor` update of lines 173-176. -/
def maxStep (acc v : Nat) : Nat := if acc < v then v else acc

theorem foldl_minStep_const (lo : Nat) (l : List Nat) (h : ∀ v ∈ l, lo ≤ v) :
    l.foldl minStep lo = lo := by
  induction l with
  | nil => rfl
  | cons v l ih =>
    have hv := h v (by simp)
    have h1 : minStep lo v = lo := by unfold minStep; split <;> omega
    rw [List.foldl_cons, h1]
    exact ih fun x hx => h x (List.mem_cons_of_mem _ hx)

theorem foldl_minStep_eq (l : List Nat) :
    ∀ (init lo : Nat), lo ∈ l → (∀ v ∈ l, lo ≤ v) → lo ≤ init →
      l.foldl minStep init = lo := by
  induction l with
  | nil => intro _ _ h; simp at h
  | cons v l ih =>
    intro init lo hmem hlb hinit
    rw [List.foldl_cons]
    rcases List.mem_cons.mp hmem with hv | hmem'
    · subst hv
      have h1 : minStep init lo = lo := by unfold minStep; split <;> omega
      rw [h1]
      exact foldl_minStep_const lo l fun x hx => hlb x (List.mem_cons_of_mem _ hx)
    · refine ih (minStep init v) lo hmem'
        (fun x hx => hlb x (List.mem_cons_of_mem _ hx)) ?_
      have hv := hlb v (by simp)
      unfold minStep
      split <;> omega

theorem foldl_maxStep_const (hi : Nat) (l : List Nat) (h : ∀ v ∈ l, v ≤ hi) :
    l.foldl maxStep hi = hi := by
  induction l with
  | nil => rfl
  | cons v l ih =>
    have hv := h v (by simp)
    have h1 : maxStep hi v = hi := by unfold maxStep; split <;> omega
    rw [List.foldl_cons, h1]
    exact ih fun x hx => h x (List.mem_cons_of_mem _ hx)

theorem foldl_maxStep_eq (l : List Nat) :
    ∀ (init hi : Nat), hi ∈ l → (∀ v ∈ l, v ≤ hi) → init ≤ hi →
      l.foldl maxStep init = hi := by
  induction l with
  | nil => intro _ _ h; simp at h
  | cons v l ih =>
    intro init hi hmem hub hinit
    rw [List.foldl_cons]
    rcases List.mem_cons.mp hmem with hv | hmem'
    · subst hv
      have h1 : maxStep init hi = hi := by unfold maxStep; split <;> omega
      rw [h1]
      exact foldl_maxStep_const hi l fun x hx => hub x (List.mem_cons_of_mem _ hx)
    · refine ih (maxStep init v) hi hmem'
        (fun x hx => hub x (List.mem_cons_of_mem _ hx)) ?_
      have hv := hub v (by simp)
      unfold maxStep
      split <;> omega

theorem procNats_lt (size : Nat) (ts : List CpuInfoLine) :
    ∀ b, PreThreeEight size b ts → ∀ v ∈ procNats ts, v < size := by
  induction ts with
  | nil => intro b _ v hv; simp [procNats] at hv
  | cons t ts ih =>
    intro b hP v hv
    cases t with
    | blank => exact ih false hP v hv
    | other => exact ih b hP v hv
    | hw w => exact ih b hP.2 v hv
    | impl w => exact ih b hP.2.2 v hv
    | part w => exact ih b hP.2.2 v hv
    | proc w =>
      obtain ⟨⟨q, hq, hqs, hq64⟩, hP'⟩ := hP
      subst hq
      have hpn : procNats (.proc (some (some (q : Int))) :: ts)
          = sizeT (q : Int) :: procNats ts := rfl
      rw [hpn, sizeT_natCast q hq64] at hv
      rcases List.mem_cons.mp hv with hv | hv
      · omega
      · exact ih true hP' v hv

end cpu_utils

namespace cpu_utils

/-- Running the loop over pre-3.8-style input: `cpuIds` is untouched, the
out-of-place accumulator folds over the implementer/part lines, the min/max
processor trackers fold over the observed processor numbers, and the format
is marked invalid as soon as an implementer/part line was processed. -/
theorem preRun (size : Nat) (ts : List CpuInfoLine) :
    ∀ (b : Bool) (st : ParseState),
      PreThreeEight size b ts →
      st.foundProcessorInSection = b →
      (b = false → st.processor = none) →
      st.cpuIds.length = size →
      ∃ st', parseLoop false st ts = .endOfInput st' ∧
        st'.cpuIds = st.cpuIds ∧
        st'.outOfPlaceCpuId = (ts.filter isImplPart).foldl oopStep st.outOfPlaceCpuId ∧
        st'.minProcessor = (procNats ts).foldl minStep st.minProcessor ∧
        st'.maxProcessor = (procNats ts).foldl maxStep st.maxProcessor ∧
        ((st.invalidFormat = true ∨ ts.filter isImplPart ≠ []) →
          st'.invalidFormat = true) := by
  induction ts with
  | nil =>
    intro b st _ _ _ _
    refine ⟨st, rfl, rfl, rfl, rfl, rfl, ?_⟩
    rintro (h | h)
    · exact h
    · simp at h
  | cons t ts ih =>
    intro b st hP hfps hproc hlen
    cases t with
    | blank =>
      obtain ⟨st', h1, h2, h3, h4, h5, h6⟩ := ih false
        { st with processor := none, foundProcessorInSection := false }
        hP rfl (fun _ => rfl) hlen
      refine ⟨st', h1, by simpa using h2, ?_, ?_, ?_, ?_⟩
      · simpa using h3
      · simpa using h4
      · simpa using h5
      · intro hd
        refine h6 ?_
        rcases hd with hd | hd
        · exact Or.inl hd
        · exact Or.inr hd
    | other =>
      obtain ⟨st', h1, h2, h3, h4, h5, h6⟩ := ih b st hP hfps hproc hlen
      exact ⟨st', h1, h2, h3, h4, h5, h6⟩
    | hw w =>
      obtain ⟨⟨s, hs⟩, hP'⟩ := hP
      subst hs
      cases hfc : st.foundCoreName with
      | true =>
        have hstep : parseStep false st (.hw (some s)) = .cont st := by
          unfold parseStep
          rw [hfc]
          rfl
        obtain ⟨st', h1, h2, h3, h4, h5, h6⟩ := ih b st hP' hfps hproc hlen
        refine ⟨st', ?_, h2, h3, h4, h5, h6⟩
        unfold parseLoop
        rw [hstep]
        exact h1
      | false =>
        have hstep : parseStep false st (.hw (some s))
            = .cont { st with hardwareName := s, foundCoreName := true } := by
          unfold parseStep
          rw [hfc]
          rfl
        obtain ⟨st', h1, h2, h3, h4, h5, h6⟩ := ih b
          { st with hardwareName := s, foundCoreName := true }
          hP' hfps hproc hlen
        refine ⟨st', ?_, by simpa using h2, by simpa using h3, by simpa using h4,
          by simpa using h5, ?_⟩
        · unfold parseLoop
          rw [hstep]
          exact h1
        · intro hd
          refine h6 ?_
          rcases hd with hd | hd
          · exact Or.inl (by simpa using hd)
          · exact Or.inr hd
    | impl w =>
      obtain ⟨hb, ⟨x, hx⟩, hP'⟩ := hP
      subst hx
      subst hb
      have hpn : st.processor = none := hproc rfl
      have hstep : parseStep false st (.impl (some (some x)))
          = .cont { st with outOfPlaceCpuId := setImplementer st.outOfPlaceCpuId x,
                            invalidFormat := true } := by
        unfold parseStep
        rw [hpn]
      obtain ⟨st', h1, h2, h3, h4, h5, h6⟩ := ih false
        { st with outOfPlaceCpuId := setImplementer st.outOfPlaceCpuId x,
                  invalidFormat := true }
        hP' hfps (fun _ => hpn) hlen
      refine ⟨st', ?_, by simpa using h2, ?_, by simpa using h4,
        by simpa using h5, fun _ => h6 (Or.inl rfl)⟩
      · unfold parseLoop
        rw [hstep]
        exact h1
      · rw [show (CpuInfoLine.impl (some (some x)) :: ts).filter isImplPart
            = CpuInfoLine.impl (some (some x)) :: ts.filter isImplPart from rfl]
        rw [List.foldl_cons]
        exact h3
    | part w =>
      obtain ⟨hb, ⟨y, hy⟩, hP'⟩ := hP
      subst hy
      subst hb
      have hpn : st.processor = none := hproc rfl
      have hstep : parseStep false st (.part (some (some y)))
          = .cont { st with outOfPlaceCpuId := setPart st.outOfPlaceCpuId y,
                            invalidFormat := true } := by
        unfold parseStep
        rw [hpn]
      obtain ⟨st', h1, h2, h3, h4, h5, h6⟩ := ih false
        { st with outOfPlaceCpuId := setPart st.outOfPlaceCpuId y,
                  invalidFormat := true }
        hP' hfps (fun _ => hpn) hlen
      refine ⟨st', ?_, by simpa using h2, ?_, by simpa using h4,
        by simpa using h5, fun _ => h6 (Or.inl rfl)⟩
      · unfold parseLoop
        rw [hstep]
        exact h1
      · rw [show (CpuInfoLine.part (some (some y)) :: ts).filter isImplPart
            = CpuInfoLine.part (some (some y)) :: ts.filter isImplPart from rfl]
        rw [List.foldl_cons]
        exact h3
    | proc w =>
      obtain ⟨⟨q, hq, hqs, hq64⟩, hP'⟩ := hP
      subst hq
      have hpn : procNats (.proc (some (some (q : Int))) :: ts)
          = sizeT (q : Int) :: procNats ts := rfl
      cases hb : b with
      | false =>
        subst hb
        have hstep : parseStep false st (.proc (some (some (q : Int))))
            = .cont { st with
                minProcessor := minStep st.minProcessor q,
                maxProcessor := maxStep st.maxProcessor q,
                processor := some q, foundProcessorInSection := true } := by
          unfold parseStep
          dsimp only
          rw [sizeT_natCast q hq64, hfps]
          rw [if_neg (by decide), if_neg (by omega)]
          rfl
        obtain ⟨st', h1, h2, h3, h4, h5, h6⟩ := ih true
          { st with
              minProcessor := minStep st.minProcessor q,
              maxProcessor := maxStep st.maxProcessor q,
              processor := some q, foundProcessorInSection := true }
          hP' rfl (by intro h; cases h) hlen
        refine ⟨st', ?_, by simpa using h2, by simpa using h3, ?_, ?_, ?_⟩
        · unfold parseLoop
          rw [hstep]
          exact h1
        · rw [hpn, sizeT_natCast q hq64, List.foldl_cons]
          exact h4
        · rw [hpn, sizeT_natCast q hq64, List.foldl_cons]
          exact h5
        · intro hd
          refine h6 ?_
          rcases hd with hd | hd
          · exact Or.inl (by simpa using hd)
          · exact Or.inr hd
      | true =>
        subst hb
        have hstep : parseStep false st (.proc (some (some (q : Int))))
            = .cont { st with
                minProcessor := minStep st.minProcessor q,
                maxProcessor := maxStep st.maxProcessor q,
                processor := none, invalidFormat := true } := by
          unfold parseStep
          dsimp only
          rw [sizeT_natCast q hq64, hfps]
          rfl
        obtain ⟨st', h1, h2, h3, h4, h5, h6⟩ := ih true
          { st with
              minProcessor := minStep st.minProcessor q,
              maxProcessor := maxStep st.maxProcessor q,
              processor := none, invalidFormat := true }
          hP' hfps (by intro h; cases h) hlen
        refine ⟨st', ?_, by simpa using h2, by simpa using h3, ?_, ?_,
          fun _ => h6 (Or.inl rfl)⟩
        · unfold parseLoop
          rw [hstep]
          exact h1
        · rw [hpn, sizeT_natCast q hq64, List.foldl_cons]
          exact h4
        · rw [hpn, sizeT_natCast q hq64, List.foldl_cons]
          exact h5

end cpu_utils

namespace cpu_utils

theorem setImplementer_neg_one (m : Nat) :
    setImplementer (-1) ((m : Nat) : Int) = ((m <<< 12 : Nat) : Int) := by
  unfold setImplementer
  rw [if_pos rfl]
  rw [show (0 : Int) = ((0 : Nat) : Int) from rfl]
  rw [show Int.lor ((0 : Nat) : Int) (((m : Nat) : Int) <<< (12 : Int))
      = (((0 ||| m <<< 12 : Nat)) : Int) from rfl]
  simp

theorem setPart_neg_one (p : Nat) :
    setPart (-1) ((p : Nat) : Int) = ((p : Nat) : Int) := by
  unfold setPart
  rw [if_pos rfl]
  rw [show (0 : Int) = ((0 : Nat) : Int) from rfl]
  rw [show Int.lor ((0 : Nat) : Int) ((p : Nat) : Int)
      = (((0 ||| p : Nat)) : Int) from rfl]
  simp

theorem setPart_natCast (a p : Nat) :
    setPart ((a : Nat) : Int) ((p : Nat) : Int) = ((a ||| p : Nat) : Int) := by
  unfold setPart
  rw [if_neg (by omega)]
  rfl

theorem setImplementer_natCast (a m : Nat) :
    setImplementer ((a : Nat) : Int) ((m : Nat) : Int)
      = ((a ||| m <<< 12 : Nat) : Int) := by
  unfold setImplementer
  rw [if_neg (by omega)]
  rfl

/-- C7: pre-3.8-style input (every implementer/part value out of place,
exactly one implementer/part pair with values `m`, `p`, observed processor
numbers spanning `[lo..hi]`): after `parseProcCpuInfo` returns, every entry of
`cpuIds` in `[lo..hi]` that held -1 holds the global `(m <<< 12) ||| p` value
and every other entry is unchanged. -/
theorem C7_pre38_global_fill
    (cpuIds : List Int) (lines : List (List Char)) (m p lo hi : Nat)
    (hpre : PreThreeEight cpuIds.length false (lines.map classifyLine))
    (hfilter :
      (lines.map classifyLine).filter isImplPart
          = [.impl (some (some (m : Int))), .part (some (some (p : Int)))] ∨
      (lines.map classifyLine).filter isImplPart
          = [.part (some (some (p : Int))), .impl (some (some (m : Int)))])
    (hlo : lo ∈ procNats (lines.map classifyLine))
    (hhi : hi ∈ procNats (lines.map classifyLine))
    (hbound : ∀ v ∈ procNats (lines.map classifyLine), lo ≤ v ∧ v ≤ hi) :
    ∃ hw ids', parseProcCpuInfo false cpuIds lines = .ok hw ids' ∧
      (∀ i, lo ≤ i → i ≤ hi → cpuIds.getD i 0 = -1 →
        ids'.getD i 0 = Int.lor ((m : Int) <<< (12 : Int)) (p : Int)) ∧
      (∀ i, ¬ (lo ≤ i ∧ i ≤ hi ∧ cpuIds.getD i 0 = -1) →
        ids'.getD i 0 = cpuIds.getD i 0) := by
  obtain ⟨st', h1, h2, h3, h4, h5, h6⟩ := preRun cpuIds.length
    (lines.map classifyLine) false (ParseState.init cpuIds) hpre rfl
    (fun _ => rfl) rfl
  have h2' : st'.cpuIds = cpuIds := h2
  have hoopval : st'.outOfPlaceCpuId = ((m <<< 12 ||| p : Nat) : Int) := by
    rw [h3]
    rcases hfilter with hf | hf
    · rw [hf]
      rw [show List.foldl oopStep (ParseState.init cpuIds).outOfPlaceCpuId
          [CpuInfoLine.impl (some (some (m : Int))),
            CpuInfoLine.part (some (some (p : Int)))]
          = setPart (setImplementer (-1) (m : Int)) (p : Int) from rfl]
      rw [setImplementer_neg_one, setPart_natCast]
    · rw [hf]
      rw [show List.foldl oopStep (ParseState.init cpuIds).outOfPlaceCpuId
          [CpuInfoLine.part (some (some (p : Int))),
            CpuInfoLine.impl (some (some (m : Int)))]
          = setImplementer (setPart (-1) (p : Int)) (m : Int) from rfl]
      rw [setPart_neg_one, setImplementer_natCast]
      rw [Nat.lor_comm]
  have hlosize : lo < cpuIds.length :=
    procNats_lt cpuIds.length (lines.map classifyLine) false hpre lo hlo
  have hhisize : hi < cpuIds.length :=
    procNats_lt cpuIds.length (lines.map classifyLine) false hpre hi hhi
  have hlohi : lo ≤ hi := (hbound lo hlo).2
  have hminval : st'.minProcessor = lo := by
    rw [h4]
    exact foldl_minStep_eq _ _ lo hlo (fun v hv => (hbound v hv).1)
      (by show lo ≤ cpuIds.length; omega)
  have hmaxval : st'.maxProcessor = hi := by
    rw [h5]
    exact foldl_maxStep_eq _ _ hi hhi (fun v hv => (hbound v hv).2)
      (by show 0 ≤ hi; omega)
  have hinv : st'.invalidFormat = true := by
    refine h6 (Or.inr ?_)
    rcases hfilter with hf | hf <;> simp [hf]
  have hcond : st'.invalidFormat = true ∧ st'.outOfPlaceCpuId ≠ -1 ∧
      st'.minProcessor ≤ st'.maxProcessor := by
    refine ⟨hinv, ?_, ?_⟩
    · rw [hoopval]; omega
    · rw [hminval, hmaxval]; omega
  have hminP : (if 0 < st'.minProcessor then st'.minProcessor else 0) = lo := by
    rw [hminval]
    split <;> omega
  have hmaxP : (if st'.maxProcessor < st'.cpuIds.length then st'.maxProcessor + 1
      else st'.cpuIds.length) = hi + 1 := by
    rw [hmaxval, h2']
    rw [if_pos hhisize]
  have hfin : finalize st'
      = (st'.hardwareName, fillLoop ((m <<< 12 ||| p : Nat) : Int) cpuIds lo
          (hi + 1 - lo)) := by
    unfold finalize
    rw [if_pos hcond]
    rw [hminP, hmaxP, hoopval, h2']
  have htarget : Int.lor ((m : Int) <<< (12 : Int)) (p : Int)
      = ((m <<< 12 ||| p : Nat) : Int) := rfl
  refine ⟨st'.hardwareName, fillLoop ((m <<< 12 ||| p : Nat) : Int) cpuIds lo
    (hi + 1 - lo), ?_, ?_, ?_⟩
  · unfold parseProcCpuInfo
    rw [h1]
    dsimp only
    rw [hfin]
  · intro i hloi hihi hneg
    rw [htarget, fillLoop_getD]
    rw [if_pos ⟨hloi, by omega, hneg⟩]
  · intro i hni
    rw [fillLoop_getD]
    rw [if_neg fun hcond' => hni ⟨hcond'.1, by omega, hcond'.2.2⟩]

end cpu_utils

namespace cpu_utils

/-- The pre-3.8-style input of the spec's scenario: four sections with
`processor:` lines 2..5 and a final section holding the single out-of-place
implementer/part pair. -/
def pre38lines : List (List Char) :=
  [("processor\t: 2\n").toList, ("\n").toList,
   ("processor\t: 3\n").toList, ("\n").toList,
   ("processor\t: 4\n").toList, ("\n").toList,
   ("processor\t: 5\n").toList, ("\n").toList,
   ("CPU implementer\t: 0x41\n").toList, ("CPU part\t: 0xd03\n").toList]

/-- C7 witness: the pre-3.8 fill evaluated on the spec scenario (initial
`cpuIds = [-1] * 8`, processors 2..5, pair `0x41`/`0xd03`). -/
theorem C7_witness :
    ∃ hw ids', parseProcCpuInfo false [-1, -1, -1, -1, -1, -1, -1, -1]
        pre38lines = .ok hw ids' ∧
      (∀ i, 2 ≤ i → i ≤ 5 →
        ([-1, -1, -1, -1, -1, -1, -1, -1] : List Int).getD i 0 = -1 →
        ids'.getD i 0 = Int.lor (((65 : Nat) : Int) <<< (12 : Int)) ((3331 : Nat) : Int)) ∧
      (∀ i, ¬ (2 ≤ i ∧ i ≤ 5 ∧
          ([-1, -1, -1, -1, -1, -1, -1, -1] : List Int).getD i 0 = -1) →
        ids'.getD i 0 = ([-1, -1, -1, -1, -1, -1, -1, -1] : List Int).getD i 0) :=
  C7_pre38_global_fill [-1, -1, -1, -1, -1, -1, -1, -1] pre38lines 65 3331 2 5
    ⟨⟨2, rfl, by norm_num, by norm_num⟩, ⟨3, rfl, by norm_num, by norm_num⟩,
      ⟨4, rfl, by norm_num, by norm_num⟩, ⟨5, rfl, by norm_num, by norm_num⟩,
      rfl, ⟨65, rfl⟩, rfl, ⟨3331, rfl⟩, trivial⟩
    (Or.inl (by decide)) (by decide) (by decide) (by decide)

end cpu_utils
